import Mathlib

set_option linter.unnecessarySeqFocus false
set_option linter.unusedTactic false
set_option linter.unusedVariables false

/-!
Verification development for the PBR drawable / shader-variant core
(esp/gfx/PbrDrawable.cpp and esp/gfx/PbrShader.cpp).

The development is a shallow embedding of the two source files:
scalar material values are rationals, texture pointers are modelled as
optional numeric ids (none = null pointer), the GL uniform store and the
texture-unit binding table of a compiled program are explicit records,
and the global GL front-face winding state is threaded through the draw
call explicitly.  Assertion macros (CORRADE_ASSERT and
CORRADE_INTERNAL_ASSERT) are modelled with assertions enabled: a failed
CORRADE_ASSERT returns early from the enclosing function leaving the
remaining work undone, and the returned assertion tag records which
check fired.

Declarations whose defining code is not part of the two source files
(the PbrShader.h flag enum and material-cache defaults, LightSetup,
the shadow-map manager, Magnum library accessors) carry a doc comment
starting with: Modelled from the spec.
-/

namespace PbrGfx

/-- Three-component vector of rationals (Magnum Vector3). -/
structure Vec3 where
  x : ℚ
  y : ℚ
  z : ℚ
deriving DecidableEq, Repr

/-- Four-component vector of rationals (Magnum Vector4). -/
structure Vec4 where
  x : ℚ
  y : ℚ
  z : ℚ
  w : ℚ
deriving DecidableEq, Repr

/-- Componentwise scaling of a 4-vector by a scalar, the meaning of the
vector *= scalar statement in updateShaderLightDirectionParameters. -/
def Vec4.scale (q : ℚ) (v : Vec4) : Vec4 :=
  ⟨q * v.x, q * v.y, q * v.z, q * v.w⟩

/-- Three-component linear RGB color (Magnum Color3). -/
structure Color3 where
  r : ℚ
  g : ℚ
  b : ℚ
deriving DecidableEq, Repr

/-- Componentwise scaling of a color by a scalar intensity. -/
def Color3.smul (q : ℚ) (c : Color3) : Color3 :=
  ⟨q * c.r, q * c.g, q * c.b⟩

/-- Four-component linear RGBA color (Magnum Color4). -/
structure Color4 where
  r : ℚ
  g : ℚ
  b : ℚ
  a : ℚ
deriving DecidableEq, Repr

/-- A 3x3 matrix of rationals in row-major layout (Magnum Matrix3x3). -/
structure Mat3 where
  m00 : ℚ
  m01 : ℚ
  m02 : ℚ
  m10 : ℚ
  m11 : ℚ
  m12 : ℚ
  m20 : ℚ
  m21 : ℚ
  m22 : ℚ
deriving DecidableEq, Repr

/-- The 3x3 identity matrix (Magnum Matrix3x3 default constructor). -/
def Mat3.identity : Mat3 :=
  ⟨1, 0, 0, 0, 1, 0, 0, 0, 1⟩

/-- Matrix product of two 3x3 matrices. -/
def Mat3.mul (A B : Mat3) : Mat3 where
  m00 := A.m00 * B.m00 + A.m01 * B.m10 + A.m02 * B.m20
  m01 := A.m00 * B.m01 + A.m01 * B.m11 + A.m02 * B.m21
  m02 := A.m00 * B.m02 + A.m01 * B.m12 + A.m02 * B.m22
  m10 := A.m10 * B.m00 + A.m11 * B.m10 + A.m12 * B.m20
  m11 := A.m10 * B.m01 + A.m11 * B.m11 + A.m12 * B.m21
  m12 := A.m10 * B.m02 + A.m11 * B.m12 + A.m12 * B.m22
  m20 := A.m20 * B.m00 + A.m21 * B.m10 + A.m22 * B.m20
  m21 := A.m20 * B.m01 + A.m21 * B.m11 + A.m22 * B.m21
  m22 := A.m20 * B.m02 + A.m21 * B.m12 + A.m22 * B.m22

/-- Matrix-vector product. -/
def Mat3.mulVec (A : Mat3) (v : Vec3) : Vec3 where
  x := A.m00 * v.x + A.m01 * v.y + A.m02 * v.z
  y := A.m10 * v.x + A.m11 * v.y + A.m12 * v.z
  z := A.m20 * v.x + A.m21 * v.y + A.m22 * v.z

/-- Determinant of a 3x3 matrix (Magnum determinant()). -/
def Mat3.det (A : Mat3) : ℚ :=
  A.m00 * (A.m11 * A.m22 - A.m12 * A.m21)
    - A.m01 * (A.m10 * A.m22 - A.m12 * A.m20)
    + A.m02 * (A.m10 * A.m21 - A.m11 * A.m20)

/-- Cofactor matrix of a 3x3 matrix (Magnum comatrix()). -/
def Mat3.comatrix (A : Mat3) : Mat3 where
  m00 := A.m11 * A.m22 - A.m12 * A.m21
  m01 := A.m12 * A.m20 - A.m10 * A.m22
  m02 := A.m10 * A.m21 - A.m11 * A.m20
  m10 := A.m02 * A.m21 - A.m01 * A.m22
  m11 := A.m00 * A.m22 - A.m02 * A.m20
  m12 := A.m01 * A.m20 - A.m00 * A.m21
  m20 := A.m01 * A.m12 - A.m02 * A.m11
  m21 := A.m02 * A.m10 - A.m00 * A.m12
  m22 := A.m00 * A.m11 - A.m01 * A.m10

/-- Division of every matrix entry by a scalar. -/
def Mat3.divScalar (A : Mat3) (q : ℚ) : Mat3 :=
  ⟨A.m00 / q, A.m01 / q, A.m02 / q, A.m10 / q, A.m11 / q, A.m12 / q,
    A.m20 / q, A.m21 / q, A.m22 / q⟩

/-- An affine 4x4 transform (bottom row 0 0 0 1, Magnum Matrix4 used as a
scene transform): a 3x3 rotation/scale block, the rotationScaling() part,
plus a translation column. -/
structure Affine4 where
  linear : Mat3
  translation : Vec3
deriving DecidableEq, Repr

/-- The identity transform. -/
def Affine4.identity : Affine4 :=
  ⟨Mat3.identity, ⟨0, 0, 0⟩⟩

/-- Componentwise sum of two 3-vectors. -/
def Vec3.add (v w : Vec3) : Vec3 :=
  ⟨v.x + w.x, v.y + w.y, v.z + w.z⟩

/-- Product of two affine transforms; the rotation/scale block of the
product is the product of the blocks. -/
def Affine4.mul (A B : Affine4) : Affine4 :=
  ⟨A.linear.mul B.linear, (A.linear.mulVec B.translation).add A.translation⟩

/-- Modelled from the spec: a projection matrix is opaque data fed through
to the program untouched (no claim inspects its entries); the identity
value is the one pushed by the program constructor. -/
inductive ProjMat where
  | identity : ProjMat
  | external (id : ℕ) : ProjMat
deriving DecidableEq, Repr

/-- Modelled from the spec: the 2D unit direction vector produced by
Magnum Complex::rotation(angle); the library guarantees the vector equals
(cos angle, sin angle), so it is represented by its angle.  The value for
angle 0 is the vector (1, 0). -/
structure RotVec where
  angle : ℚ
deriving DecidableEq, Repr

/-- Magnum Math::clamp(value, lo, hi) = min(max(value, lo), hi). -/
def clampQ (v lo hi : ℚ) : ℚ :=
  min (max v lo) hi

/-- Modelled from the spec: the PbrShader::Flags capability set (the enum
lives in the absent PbrShader.h header).  One independent boolean per
atomic bit, per the spec data model: texture presence per channel,
per-layer presence, per-layer-texture presence, texture transform,
double-sided, instanced id, debug display, shadow variant, IBL. -/
structure PbrFlags where
  baseColorTexture : Bool := false
  noneRoughnessMetallicTexture : Bool := false
  normalTexture : Bool := false
  emissiveTexture : Bool := false
  textureTransformation : Bool := false
  precomputedTangent : Bool := false
  objectId : Bool := false
  instancedObjectId : Bool := false
  clearCoatLayer : Bool := false
  clearCoatTexture : Bool := false
  clearCoatRoughnessTexture : Bool := false
  clearCoatNormalTexture : Bool := false
  specularLayer : Bool := false
  specularLayerTexture : Bool := false
  specularLayerColorTexture : Bool := false
  anisotropyLayer : Bool := false
  anisotropyLayerTexture : Bool := false
  transmissionLayer : Bool := false
  transmissionLayerTexture : Bool := false
  volumeLayer : Bool := false
  volumeLayerThicknessTexture : Bool := false
  doubleSided : Bool := false
  imageBasedLighting : Bool := false
  debugDisplay : Bool := false
  shadowsVSM : Bool := false
deriving DecidableEq, Repr

/-- Named PbrShader::Flag enum constants, the values a C++ caller can name. -/
inductive FlagConst where
  | baseColorTexture
  | noneRoughnessMetallicTexture
  | normalTexture
  | emissiveTexture
  | textureTransformation
  | precomputedTangent
  | objectId
  | instancedObjectId
  | clearCoatLayer
  | clearCoatTexture
  | clearCoatRoughnessTexture
  | clearCoatNormalTexture
  | specularLayer
  | specularLayerTexture
  | specularLayerColorTexture
  | anisotropyLayer
  | anisotropyLayerTexture
  | transmissionLayer
  | transmissionLayerTexture
  | volumeLayer
  | volumeLayerThicknessTexture
  | doubleSided
  | imageBasedLighting
  | debugDisplay
  | shadowsVSM
deriving DecidableEq, Repr

/-- Modelled from the spec: bitwise OR of a named flag constant into a flag
set.  Per the spec invariant a layer-texture flag value contains its parent
layer bit (texture flags are strictly dependent, never set alone), and the
source comment in the anisotropy branch confirms it: OR-ing in a
layer-texture constant also sets the parent layer bit.  Likewise the
InstancedObjectId constant contains the ObjectId bit, matching the superset
test flags >= InstancedObjectId used by draw(). -/
def orFlag (f : PbrFlags) : FlagConst → PbrFlags
  | .baseColorTexture => { f with baseColorTexture := true }
  | .noneRoughnessMetallicTexture => { f with noneRoughnessMetallicTexture := true }
  | .normalTexture => { f with normalTexture := true }
  | .emissiveTexture => { f with emissiveTexture := true }
  | .textureTransformation => { f with textureTransformation := true }
  | .precomputedTangent => { f with precomputedTangent := true }
  | .objectId => { f with objectId := true }
  | .instancedObjectId => { f with instancedObjectId := true, objectId := true }
  | .clearCoatLayer => { f with clearCoatLayer := true }
  | .clearCoatTexture => { f with clearCoatTexture := true, clearCoatLayer := true }
  | .clearCoatRoughnessTexture => { f with clearCoatRoughnessTexture := true, clearCoatLayer := true }
  | .clearCoatNormalTexture => { f with clearCoatNormalTexture := true, clearCoatLayer := true }
  | .specularLayer => { f with specularLayer := true }
  | .specularLayerTexture => { f with specularLayerTexture := true, specularLayer := true }
  | .specularLayerColorTexture => { f with specularLayerColorTexture := true, specularLayer := true }
  | .anisotropyLayer => { f with anisotropyLayer := true }
  | .anisotropyLayerTexture => { f with anisotropyLayerTexture := true, anisotropyLayer := true }
  | .transmissionLayer => { f with transmissionLayer := true }
  | .transmissionLayerTexture => { f with transmissionLayerTexture := true, transmissionLayer := true }
  | .volumeLayer => { f with volumeLayer := true }
  | .volumeLayerThicknessTexture => { f with volumeLayerThicknessTexture := true, volumeLayer := true }
  | .doubleSided => { f with doubleSided := true }
  | .imageBasedLighting => { f with imageBasedLighting := true }
  | .debugDisplay => { f with debugDisplay := true }
  | .shadowsVSM => { f with shadowsVSM := true }

/-- Modelled from the spec: the Magnum EnumSet superset test
(flags >= constant), true when every bit of the constant value is present;
for a compound layer-texture constant that is the texture bit together
with its parent layer bit. -/
def containsFlag (f : PbrFlags) : FlagConst → Bool
  | .baseColorTexture => f.baseColorTexture
  | .noneRoughnessMetallicTexture => f.noneRoughnessMetallicTexture
  | .normalTexture => f.normalTexture
  | .emissiveTexture => f.emissiveTexture
  | .textureTransformation => f.textureTransformation
  | .precomputedTangent => f.precomputedTangent
  | .objectId => f.objectId
  | .instancedObjectId => f.instancedObjectId && f.objectId
  | .clearCoatLayer => f.clearCoatLayer
  | .clearCoatTexture => f.clearCoatTexture && f.clearCoatLayer
  | .clearCoatRoughnessTexture => f.clearCoatRoughnessTexture && f.clearCoatLayer
  | .clearCoatNormalTexture => f.clearCoatNormalTexture && f.clearCoatLayer
  | .specularLayer => f.specularLayer
  | .specularLayerTexture => f.specularLayerTexture && f.specularLayer
  | .specularLayerColorTexture => f.specularLayerColorTexture && f.specularLayer
  | .anisotropyLayer => f.anisotropyLayer
  | .anisotropyLayerTexture => f.anisotropyLayerTexture && f.anisotropyLayer
  | .transmissionLayer => f.transmissionLayer
  | .transmissionLayerTexture => f.transmissionLayerTexture && f.transmissionLayer
  | .volumeLayer => f.volumeLayer
  | .volumeLayerThicknessTexture => f.volumeLayerThicknessTexture && f.volumeLayer
  | .doubleSided => f.doubleSided
  | .imageBasedLighting => f.imageBasedLighting
  | .debugDisplay => f.debugDisplay
  | .shadowsVSM => f.shadowsVSM

/-- The atomic bits of a flag set, as an ordered list. -/
def PbrFlags.toBits (f : PbrFlags) : List Bool :=
  [f.baseColorTexture, f.noneRoughnessMetallicTexture, f.normalTexture,
    f.emissiveTexture, f.textureTransformation, f.precomputedTangent,
    f.objectId, f.instancedObjectId, f.clearCoatLayer, f.clearCoatTexture,
    f.clearCoatRoughnessTexture, f.clearCoatNormalTexture, f.specularLayer,
    f.specularLayerTexture, f.specularLayerColorTexture, f.anisotropyLayer,
    f.anisotropyLayerTexture, f.transmissionLayer, f.transmissionLayerTexture,
    f.volumeLayer, f.volumeLayerThicknessTexture, f.doubleSided,
    f.imageBasedLighting, f.debugDisplay, f.shadowsVSM]

/-- Binary encoding of a list of bits into a natural number, least
significant bit first. -/
def encodeBits : List Bool → ℕ
  | [] => 0
  | b :: rest => 2 * encodeBits rest + b.toNat

/-- Modelled from the spec: the flag-bits-as-integer value
static_cast to the underlying type in getShaderKey (the bit positions live
in the absent header; any fixed injective assignment of one bit per atomic
flag represents it). -/
def flagsToNat (f : PbrFlags) : ℕ :=
  encodeBits f.toBits

/-- The ClearCoat material layer attributes probed by the extractor. -/
structure ClearCoatLayerDesc where
  layerFactor : Option ℚ := none
  roughness : Option ℚ := none
  layerFactorTexture : Option ℕ := none
  roughnessTexture : Option ℕ := none
  normalTexture : Option ℕ := none
  normalTextureScale : Option ℚ := none
deriving DecidableEq, Repr

/-- The KHR_materials_specular layer attributes probed by the extractor. -/
structure SpecularLayerDesc where
  specularFactor : Option ℚ := none
  specularTexture : Option ℕ := none
  specularColorFactor : Option Color3 := none
  specularColorTexture : Option ℕ := none
deriving DecidableEq, Repr

/-- The KHR_materials_anisotropy layer attributes probed by the extractor;
anisotropy and anisotropyDirection are the legacy alias names for strength
and rotation angle. -/
structure AnisotropyLayerDesc where
  anisotropyStrength : Option ℚ := none
  anisotropy : Option ℚ := none
  anisotropyRotation : Option ℚ := none
  anisotropyDirection : Option ℚ := none
  anisotropyTexture : Option ℕ := none
deriving DecidableEq, Repr

/-- The KHR_materials_transmission layer attributes probed by the extractor. -/
structure TransmissionLayerDesc where
  transmissionFactor : Option ℚ := none
  transmissionTexture : Option ℕ := none
deriving DecidableEq, Repr

/-- The KHR_materials_volume layer attributes probed by the extractor. -/
structure VolumeLayerDesc where
  thicknessFactor : Option ℚ := none
  thicknessTexture : Option ℕ := none
  attenuationDistance : Option ℚ := none
  attenuationColor : Option Color3 := none
deriving DecidableEq, Repr

/-- The KHR_materials_ior layer attribute probed by the extractor. -/
structure IorLayerDesc where
  ior : Option ℚ := none
deriving DecidableEq, Repr

/-- A material description: the base attribute layer plus the optional
extension layers recognized by the extractor.  A layer field of none means
the layer key is absent from the material. -/
structure MaterialDescription where
  baseColor : Option Color4 := none
  roughness : Option ℚ := none
  metalness : Option ℚ := none
  emissiveColor : Option Color3 := none
  commonTextureMatrix : Option Mat3 := none
  baseColorTexture : Option ℕ := none
  noneRoughnessMetallicTexture : Option ℕ := none
  normalTexture : Option ℕ := none
  normalTextureScale : Option ℚ := none
  emissiveTexture : Option ℕ := none
  hasPerVertexObjectId : Option Bool := none
  doubleSided : Option Bool := none
  clearCoat : Option ClearCoatLayerDesc := none
  iorLayer : Option IorLayerDesc := none
  specularLayer : Option SpecularLayerDesc := none
  anisotropyLayer : Option AnisotropyLayerDesc := none
  transmissionLayer : Option TransmissionLayerDesc := none
  volumeLayer : Option VolumeLayerDesc := none
deriving DecidableEq, Repr

/-! ## The material cache (PbrMaterialCache)

Modelled from the spec: the cache record and its field defaults live in the
absent PbrDrawable.h header; the defaults below follow the spec (clearcoat
disabled at factor 0, specular strength default 1 with white color factor,
anisotropy factor 0 with direction (1,0) i.e. rotation angle 0, transmission
factor 0, volume attenuation distance unset = infinite, index of refraction
default 1.5). -/

/-- Cached clearcoat layer values. -/
structure ClearCoatCache where
  factor : ℚ := 0
  roughnessFactor : ℚ := 0
  texture : Option ℕ := none
  roughnessTexture : Option ℕ := none
  normalTexture : Option ℕ := none
  normalTextureScale : ℚ := 1
deriving DecidableEq, Repr

/-- Cached specular layer values. -/
structure SpecularCache where
  factor : ℚ := 1
  texture : Option ℕ := none
  colorFactor : Color3 := ⟨1, 1, 1⟩
  colorTexture : Option ℕ := none
deriving DecidableEq, Repr

/-- Cached anisotropy layer values. -/
structure AnisotropyCache where
  factor : ℚ := 0
  direction : RotVec := ⟨0⟩
  texture : Option ℕ := none
deriving DecidableEq, Repr

/-- Cached transmission layer values. -/
structure TransmissionCache where
  factor : ℚ := 0
  texture : Option ℕ := none
deriving DecidableEq, Repr

/-- Cached volume layer values; attenuationDist of none is the default
infinite attenuation distance. -/
structure VolumeCache where
  thicknessFactor : ℚ := 0
  thicknessTexture : Option ℕ := none
  attenuationDist : Option ℚ := none
  attenuationColor : Color3 := ⟨1, 1, 1⟩
deriving DecidableEq, Repr

/-- The material snapshot cached on the drawable. -/
structure PbrMaterialCache where
  baseColor : Color4 := ⟨1, 1, 1, 1⟩
  roughness : ℚ := 1
  metalness : ℚ := 1
  emissiveColor : Color3 := ⟨0, 0, 0⟩
  textureMatrix : Mat3 := Mat3.identity
  baseColorTexture : Option ℕ := none
  noneRoughnessMetallicTexture : Option ℕ := none
  normalTexture : Option ℕ := none
  normalTextureScale : ℚ := 1
  emissiveTexture : Option ℕ := none
  iorIndex : ℚ := 3 / 2
  clearCoat : ClearCoatCache := {}
  specularLayer : SpecularCache := {}
  anisotropyLayer : AnisotropyCache := {}
  transmissionLayer : TransmissionCache := {}
  volumeLayer : VolumeCache := {}
deriving DecidableEq, Repr

/-- The tag returned by a failed assertion; with assertions enabled a
CORRADE_ASSERT returns early with a diagnostic and a CORRADE_INTERNAL_ASSERT
aborts the process. -/
inductive AssertKind where
  | meshMissing
  | materialAttributeMissing
  | internalShaderMissing
  | iblResourceMissing
  | shadowResourcesMissing
  | shadowCountExceeded
  | shadowFlagInvalid
deriving DecidableEq, Repr

/-- Extraction state: the flags being accumulated and the cache being
filled, threaded through the extraction steps in source order. -/
abbrev ExtractState := PbrFlags × PbrMaterialCache

/-- Lines 56-96 of setMaterialValuesInternal: base scalar values via the
PbrMetallicRoughnessMaterialData accessors (library defaults: base color
white, roughness 1, metalness 1, emissive black, texture matrix identity,
normal texture scale 1), the texture-transform flag when the common texture
matrix differs from identity, and the four base texture channels; the
normal-texture branch also raises the precomputed-tangent flag when the
mesh carries tangents. -/
def extractBase (meshHasTangent : Bool) (m : MaterialDescription)
    (s : ExtractState) : ExtractState :=
  let s : ExtractState :=
    (s.1, { s.2 with
      baseColor := m.baseColor.getD ⟨1, 1, 1, 1⟩
      roughness := m.roughness.getD 1
      metalness := m.metalness.getD 1
      emissiveColor := m.emissiveColor.getD ⟨0, 0, 0⟩ })
  let texMat := m.commonTextureMatrix.getD Mat3.identity
  let s : ExtractState :=
    if texMat ≠ Mat3.identity then
      (orFlag s.1 .textureTransformation, { s.2 with textureMatrix := texMat })
    else s
  let s : ExtractState :=
    match m.baseColorTexture with
    | some t => (orFlag s.1 .baseColorTexture, { s.2 with baseColorTexture := some t })
    | none => s
  let s : ExtractState :=
    match m.noneRoughnessMetallicTexture with
    | some t =>
      (orFlag s.1 .noneRoughnessMetallicTexture,
        { s.2 with noneRoughnessMetallicTexture := some t })
    | none => s
  let s : ExtractState :=
    match m.normalTexture with
    | some t =>
      let fl := orFlag s.1 .normalTexture
      let fl := if meshHasTangent then orFlag fl .precomputedTangent else fl
      (fl, { s.2 with
        normalTexture := some t
        normalTextureScale := m.normalTextureScale.getD 1 })
    | none => s
  match m.emissiveTexture with
  | some t => (orFlag s.1 .emissiveTexture, { s.2 with emissiveTexture := some t })
  | none => s

/-- Lines 106-142: the ClearCoat layer; a zero layer factor disables the
whole layer (library accessor defaults: layerFactor 1, layer roughness 0,
layer normal texture scale 1). -/
def extractClearCoat (m : MaterialDescription) (s : ExtractState) : ExtractState :=
  match m.clearCoat with
  | none => s
  | some cc =>
    let ccLayerFactor := cc.layerFactor.getD 1
    if ccLayerFactor > 0 then
      let s : ExtractState :=
        (orFlag s.1 .clearCoatLayer,
          { s.2 with clearCoat := { s.2.clearCoat with
            factor := ccLayerFactor
            roughnessFactor := cc.roughness.getD 0 } })
      let s : ExtractState :=
        match cc.layerFactorTexture with
        | some t =>
          (orFlag s.1 .clearCoatTexture,
            { s.2 with clearCoat := { s.2.clearCoat with texture := some t } })
        | none => s
      let s : ExtractState :=
        match cc.roughnessTexture with
        | some t =>
          (orFlag s.1 .clearCoatRoughnessTexture,
            { s.2 with clearCoat := { s.2.clearCoat with roughnessTexture := some t } })
        | none => s
      match cc.normalTexture with
      | some t =>
        (orFlag s.1 .clearCoatNormalTexture,
          { s.2 with clearCoat := { s.2.clearCoat with
            normalTexture := some t
            normalTextureScale := cc.normalTextureScale.getD 1 } })
      | none => s
    else s

/-- Lines 146-156: the KHR_materials_ior layer overrides the cached index
of refraction only when its ior attribute is present. -/
def extractIor (m : MaterialDescription) (s : ExtractState) : ExtractState :=
  match m.iorLayer with
  | none => s
  | some l =>
    match l.ior with
    | some v => (s.1, { s.2 with iorIndex := v })
    | none => s

/-- Lines 160-203: the KHR_materials_specular layer; present key activates
the layer, the strength factor is clamped to [0,1], textures raise
independent sub-flags. -/
def extractSpecular (m : MaterialDescription) (s : ExtractState) : ExtractState :=
  match m.specularLayer with
  | none => s
  | some sp =>
    let s : ExtractState := (orFlag s.1 .specularLayer, s.2)
    let s : ExtractState :=
      match sp.specularFactor with
      | some v =>
        (s.1, { s.2 with specularLayer := { s.2.specularLayer with
          factor := clampQ v 0 1 } })
      | none => s
    let s : ExtractState :=
      match sp.specularTexture with
      | some t =>
        (orFlag s.1 .specularLayerTexture,
          { s.2 with specularLayer := { s.2.specularLayer with texture := some t } })
      | none => s
    let s : ExtractState :=
      match sp.specularColorFactor with
      | some c =>
        (s.1, { s.2 with specularLayer := { s.2.specularLayer with colorFactor := c } })
      | none => s
    match sp.specularColorTexture with
    | some t =>
      (orFlag s.1 .specularLayerColorTexture,
        { s.2 with specularLayer := { s.2.specularLayer with colorTexture := some t } })
    | none => s

/-- Lines 213-229: the anisotropy strength block.  Strength comes from
anisotropyStrength or, only when that name is absent, the legacy anisotropy
alias; a nonzero strength raises the layer flag and stores the factor
clamped to [-1,1]. -/
def anisoStrengthStep (a : AnisotropyLayerDesc) (s : ExtractState) : ExtractState :=
  match a.anisotropyStrength with
  | some v =>
    if |v| > 0 then
      (orFlag s.1 .anisotropyLayer,
        { s.2 with anisotropyLayer := { s.2.anisotropyLayer with
          factor := clampQ v (-1) 1 } })
    else s
  | none =>
    match a.anisotropy with
    | some v =>
      if |v| > 0 then
        (orFlag s.1 .anisotropyLayer,
          { s.2 with anisotropyLayer := { s.2.anisotropyLayer with
            factor := clampQ v (-1) 1 } })
      else s
    | none => s

/-- Lines 236-254: the anisotropy rotation block.  Rotation comes from
anisotropyRotation or, when absent, the legacy anisotropyDirection alias;
a nonzero angle raises the layer flag and stores the direction as the
rotation vector of the angle. -/
def anisoRotationStep (a : AnisotropyLayerDesc) (s : ExtractState) : ExtractState :=
  match a.anisotropyRotation with
  | some v =>
    if v ≠ 0 then
      (orFlag s.1 .anisotropyLayer,
        { s.2 with anisotropyLayer := { s.2.anisotropyLayer with
          direction := ⟨v⟩ } })
    else s
  | none =>
    match a.anisotropyDirection with
    | some v =>
      if v ≠ 0 then
        (orFlag s.1 .anisotropyLayer,
          { s.2 with anisotropyLayer := { s.2.anisotropyLayer with
            direction := ⟨v⟩ } })
      else s
    | none => s

/-- Lines 263-269: the anisotropy texture block; a texture raises the
layer-texture flag, whose constant also covers the layer bit. -/
def anisoTextureStep (a : AnisotropyLayerDesc) (s : ExtractState) : ExtractState :=
  match a.anisotropyTexture with
  | some t =>
    (orFlag s.1 .anisotropyLayerTexture,
      { s.2 with anisotropyLayer := { s.2.anisotropyLayer with texture := some t } })
  | none => s

/-- Lines 207-270: the KHR_materials_anisotropy layer, its three attribute
blocks applied in source order. -/
def extractAnisotropy (m : MaterialDescription) (s : ExtractState) : ExtractState :=
  match m.anisotropyLayer with
  | none => s
  | some a => anisoTextureStep a (anisoRotationStep a (anisoStrengthStep a s))

/-- Lines 274-289: the KHR_materials_transmission layer; present key
activates the layer, factor and texture are independent. -/
def extractTransmission (m : MaterialDescription) (s : ExtractState) : ExtractState :=
  match m.transmissionLayer with
  | none => s
  | some tr =>
    let s : ExtractState := (orFlag s.1 .transmissionLayer, s.2)
    let s : ExtractState :=
      match tr.transmissionFactor with
      | some v =>
        (s.1, { s.2 with transmissionLayer := { s.2.transmissionLayer with factor := v } })
      | none => s
    match tr.transmissionTexture with
    | some t =>
      (orFlag s.1 .transmissionLayerTexture,
        { s.2 with transmissionLayer := { s.2.transmissionLayer with texture := some t } })
    | none => s

/-- Lines 293-321: the KHR_materials_volume layer; present key activates the
layer; the attenuation distance is stored only when strictly positive. -/
def extractVolume (m : MaterialDescription) (s : ExtractState) : ExtractState :=
  match m.volumeLayer with
  | none => s
  | some vo =>
    let s : ExtractState := (orFlag s.1 .volumeLayer, s.2)
    let s : ExtractState :=
      match vo.thicknessFactor with
      | some v =>
        (s.1, { s.2 with volumeLayer := { s.2.volumeLayer with thicknessFactor := v } })
      | none => s
    let s : ExtractState :=
      match vo.thicknessTexture with
      | some t =>
        (orFlag s.1 .volumeLayerThicknessTexture,
          { s.2 with volumeLayer := { s.2.volumeLayer with thicknessTexture := some t } })
      | none => s
    let s : ExtractState :=
      match vo.attenuationDistance with
      | some v =>
        if v > 0 then
          (s.1, { s.2 with volumeLayer := { s.2.volumeLayer with attenuationDist := some v } })
        else s
      | none => s
    match vo.attenuationColor with
    | some c =>
      (s.1, { s.2 with volumeLayer := { s.2.volumeLayer with attenuationColor := c } })
    | none => s

/-- Lines 97-321 after the per-vertex-object-id probe: the instanced-id
and double-sided passthrough bits, then the extension layers in source
order. -/
def extractLayers (perVertexIds : Bool) (m : MaterialDescription)
    (s : ExtractState) : ExtractState :=
  let s : ExtractState :=
    if perVertexIds then (orFlag s.1 .instancedObjectId, s.2) else s
  let s : ExtractState :=
    if m.doubleSided.getD false then (orFlag s.1 .doubleSided, s.2) else s
  extractVolume m (extractTransmission m (extractAnisotropy m
    (extractSpecular m (extractIor m (extractClearCoat m s)))))

/-- PbrDrawable::setMaterialValuesInternal (lines 47-322): re-initializes
the flags to ObjectId alone, fills the material cache and accumulates the
capability flags in source order.  The per-vertex-object-id probe uses the
asserting attribute accessor, not findAttribute: a material without the
hasPerVertexObjectId attribute fails that assertion (in the source the
probe sits between the base-channel block and the layer blocks; the
extracted values do not depend on that ordering). -/
def setMaterialValuesInternal (meshHasTangent : Bool) (m : MaterialDescription) :
    Except AssertKind ExtractState :=
  match m.hasPerVertexObjectId with
  | none => .error .materialAttributeMissing
  | some perVertexIds =>
    .ok (extractLayers perVertexIds m
      (extractBase meshHasTangent m (orFlag {} .objectId, {})))

/-! ## The compiled program variant (PbrShader)

The GLSL source assembly, compilation and uniform-location caching in the
constructor act on the external GL program object and are not observable by
any claim; the embedding keeps the observable program state: the uniform
store and the per-texture-unit binding table (one field per reserved unit,
the fixed feature-to-slot table). -/

/-- The uniform values held by a compiled program.  Array uniforms
(lights) are lists sized by the light count; scalar uniforms start
unset. -/
structure Uniforms where
  viewMatrix : Option Affine4 := none
  modelMatrix : Option Affine4 := none
  normalMatrix : Option Mat3 := none
  projectionMatrix : Option ProjMat := none
  objectId : Option ℕ := none
  cameraWorldPos : Option Vec3 := none
  textureMatrix : Option Mat3 := none
  baseColor : Option Color4 := none
  roughness : Option ℚ := none
  metallic : Option ℚ := none
  ior : Option ℚ := none
  emissiveColor : Option Color3 := none
  normalTextureScale : Option ℚ := none
  clearCoatFactor : Option ℚ := none
  clearCoatRoughness : Option ℚ := none
  clearCoatNormalTextureScale : Option ℚ := none
  specularLayerFactor : Option ℚ := none
  specularLayerColorFactor : Option Color3 := none
  anisotropyLayerFactor : Option ℚ := none
  anisotropyLayerDirection : Option RotVec := none
  prefilteredMapMipLevels : Option ℕ := none
  componentScales : Option Vec4 := none
  pbrDebugDisplay : Option ℕ := none
  lightColors : List Color3 := []
  lightVectors : List Vec4 := []
  lightRanges : List (Option ℚ) := []
deriving DecidableEq, Repr

/-- The texture bound on each reserved texture unit (none = nothing
bound); shadow maps occupy three consecutive units. -/
structure TexBindings where
  baseColor : Option ℕ := none
  metallicRoughness : Option ℕ := none
  normal : Option ℕ := none
  emissive : Option ℕ := none
  clearCoatFactor : Option ℕ := none
  clearCoatRoughness : Option ℕ := none
  clearCoatNormal : Option ℕ := none
  specularLayer : Option ℕ := none
  specularLayerColor : Option ℕ := none
  anisotropyLayer : Option ℕ := none
  irradianceMap : Option ℕ := none
  brdfLUT : Option ℕ := none
  prefilteredMap : Option ℕ := none
  shadowMap0 : Option ℕ := none
  shadowMap1 : Option ℕ := none
  shadowMap2 : Option ℕ := none
deriving DecidableEq, Repr

/-- A compiled program variant: the construction key (flags, lightCount),
the two booleans the constructor derives from it, and the observable
program state. -/
structure PbrShader where
  flags : PbrFlags
  lightCount : ℕ
  lightingIsEnabled : Bool
  isTextured : Bool
  uniforms : Uniforms := {}
  texBindings : TexBindings := {}
deriving DecidableEq, Repr

namespace PbrShader

/-- setProjectionMatrix (line 550). -/
def setProjectionMatrix (s : PbrShader) (v : ProjMat) : PbrShader :=
  { s with uniforms := { s.uniforms with projectionMatrix := some v } }

/-- setNormalMatrix (line 555). -/
def setNormalMatrix (s : PbrShader) (v : Mat3) : PbrShader :=
  { s with uniforms := { s.uniforms with normalMatrix := some v } }

/-- setViewMatrix (line 560). -/
def setViewMatrix (s : PbrShader) (v : Affine4) : PbrShader :=
  { s with uniforms := { s.uniforms with viewMatrix := some v } }

/-- setModelMatrix (line 565). -/
def setModelMatrix (s : PbrShader) (v : Affine4) : PbrShader :=
  { s with uniforms := { s.uniforms with modelMatrix := some v } }

/-- setObjectId (line 570): uploads only when the ObjectId flag is set. -/
def setObjectId (s : PbrShader) (v : ℕ) : PbrShader :=
  if s.flags.objectId then
    { s with uniforms := { s.uniforms with objectId := some v } }
  else s

/-- setPrefilteredMapMipLevels (line 577): asserts IBL enabled, then
uploads. -/
def setPrefilteredMapMipLevels (s : PbrShader) (v : ℕ) : PbrShader :=
  if s.flags.imageBasedLighting then
    { s with uniforms := { s.uniforms with prefilteredMapMipLevels := some v } }
  else s

/-- setBaseColor (line 586): uploads only when lighting is enabled. -/
def setBaseColor (s : PbrShader) (v : Color4) : PbrShader :=
  if s.lightingIsEnabled then
    { s with uniforms := { s.uniforms with baseColor := some v } }
  else s

/-- setEmissiveColor (line 593): unconditional upload. -/
def setEmissiveColor (s : PbrShader) (v : Color3) : PbrShader :=
  { s with uniforms := { s.uniforms with emissiveColor := some v } }

/-- setRoughness (line 598): uploads only when lighting is enabled. -/
def setRoughness (s : PbrShader) (v : ℚ) : PbrShader :=
  if s.lightingIsEnabled then
    { s with uniforms := { s.uniforms with roughness := some v } }
  else s

/-- setMetallic (line 605): uploads only when lighting is enabled. -/
def setMetallic (s : PbrShader) (v : ℚ) : PbrShader :=
  if s.lightingIsEnabled then
    { s with uniforms := { s.uniforms with metallic := some v } }
  else s

/-- setIndexOfRefraction (line 612): uploads only when lighting is
enabled. -/
def setIndexOfRefraction (s : PbrShader) (v : ℚ) : PbrShader :=
  if s.lightingIsEnabled then
    { s with uniforms := { s.uniforms with ior := some v } }
  else s

/-- setClearCoatFactor (line 619): uploads only when lighting is enabled. -/
def setClearCoatFactor (s : PbrShader) (v : ℚ) : PbrShader :=
  if s.lightingIsEnabled then
    { s with uniforms := { s.uniforms with clearCoatFactor := some v } }
  else s

/-- setClearCoatRoughness (line 626): uploads only when lighting is
enabled. -/
def setClearCoatRoughness (s : PbrShader) (v : ℚ) : PbrShader :=
  if s.lightingIsEnabled then
    { s with uniforms := { s.uniforms with clearCoatRoughness := some v } }
  else s

/-- setClearCoatNormalTextureScale (line 633): uploads only when lighting
is enabled. -/
def setClearCoatNormalTextureScale (s : PbrShader) (v : ℚ) : PbrShader :=
  if s.lightingIsEnabled then
    { s with uniforms := { s.uniforms with clearCoatNormalTextureScale := some v } }
  else s

/-- setSpecularLayerFactor (line 640): uploads only when lighting is
enabled. -/
def setSpecularLayerFactor (s : PbrShader) (v : ℚ) : PbrShader :=
  if s.lightingIsEnabled then
    { s with uniforms := { s.uniforms with specularLayerFactor := some v } }
  else s

/-- setAnisotropyLayerFactor (line 647): uploads only when lighting is
enabled. -/
def setAnisotropyLayerFactor (s : PbrShader) (v : ℚ) : PbrShader :=
  if s.lightingIsEnabled then
    { s with uniforms := { s.uniforms with anisotropyLayerFactor := some v } }
  else s

/-- setAnisotropyLayerDirection (line 654): uploads only when lighting is
enabled. -/
def setAnisotropyLayerDirection (s : PbrShader) (v : RotVec) : PbrShader :=
  if s.lightingIsEnabled then
    { s with uniforms := { s.uniforms with anisotropyLayerDirection := some v } }
  else s

/-- setSpecularLayerColorFactor (line 662): uploads only when lighting is
enabled. -/
def setSpecularLayerColorFactor (s : PbrShader) (v : Color3) : PbrShader :=
  if s.lightingIsEnabled then
    { s with uniforms := { s.uniforms with specularLayerColorFactor := some v } }
  else s

/-- setPbrEquationScales (line 669): unconditional upload of the packed
scales vector (directDiffuse, directSpecular, iblDiffuse, iblSpecular). -/
def setPbrEquationScales (s : PbrShader) (v : Vec4) : PbrShader :=
  { s with uniforms := { s.uniforms with componentScales := some v } }

/-- setDebugDisplay (line 676): asserts the DebugDisplay flag, then
uploads the display index. -/
def setDebugDisplay (s : PbrShader) (v : ℕ) : PbrShader :=
  if s.flags.debugDisplay then
    { s with uniforms := { s.uniforms with pbrDebugDisplay := some v } }
  else s

/-- setCameraWorldPosition (line 685): unconditional upload. -/
def setCameraWorldPosition (s : PbrShader) (v : Vec3) : PbrShader :=
  { s with uniforms := { s.uniforms with cameraWorldPos := some v } }

/-- setTextureMatrix (line 691): asserts the TextureTransformation flag;
uploads only when the program is textured. -/
def setTextureMatrix (s : PbrShader) (v : Mat3) : PbrShader :=
  if s.flags.textureTransformation then
    if s.isTextured then
      { s with uniforms := { s.uniforms with textureMatrix := some v } }
    else s
  else s

/-- setLightVectors (line 704): asserts the vector count matches the light
count, then uploads the whole array. -/
def setLightVectors (s : PbrShader) (vs : List Vec4) : PbrShader :=
  if s.lightCount = vs.length then
    { s with uniforms := { s.uniforms with lightVectors := vs } }
  else s

/-- setLightRanges (line 808): asserts the range count matches the light
count, then uploads the whole array (none models the infinite range). -/
def setLightRanges (s : PbrShader) (vs : List (Option ℚ)) : PbrShader :=
  if s.lightCount = vs.length then
    { s with uniforms := { s.uniforms with lightRanges := vs } }
  else s

/-- setLightColor (line 767): asserts the index is in range, then uploads
the color pre-multiplied by the intensity argument. -/
def setLightColor (s : PbrShader) (i : ℕ) (c : Color3) (intensity : ℚ) : PbrShader :=
  if i < s.lightCount then
    { s with uniforms := { s.uniforms with
      lightColors := s.uniforms.lightColors.set i (Color3.smul intensity c) } }
  else s

/-- The element loop of setLightColors: setLightColor on each color in
turn with increasing index.  Modelled from the spec: the intensity
argument of setLightColor is defaulted in the absent header; the default
is the neutral intensity 1. -/
def setColorsFrom (s : PbrShader) (i : ℕ) : List Color3 → PbrShader
  | [] => s
  | c :: rest => setColorsFrom (setLightColor s i c 1) (i + 1) rest

/-- setLightColors (line 780): asserts the color count matches the light
count, then uploads each color through setLightColor. -/
def setLightColors (s : PbrShader) (cs : List Color3) : PbrShader :=
  if s.lightCount = cs.length then setColorsFrom s 0 cs else s

/-- bindBaseColorTexture (line 396): asserts the flag; binds only when
lighting is enabled. -/
def bindBaseColorTexture (s : PbrShader) (t : Option ℕ) : PbrShader :=
  if s.flags.baseColorTexture then
    if s.lightingIsEnabled then
      { s with texBindings := { s.texBindings with baseColor := t } }
    else s
  else s

/-- bindMetallicRoughnessTexture (line 407): asserts the flag; binds only
when lighting is enabled. -/
def bindMetallicRoughnessTexture (s : PbrShader) (t : Option ℕ) : PbrShader :=
  if s.flags.noneRoughnessMetallicTexture then
    if s.lightingIsEnabled then
      { s with texBindings := { s.texBindings with metallicRoughness := t } }
    else s
  else s

/-- bindNormalTexture (line 419): asserts the flag; binds only when
lighting is enabled. -/
def bindNormalTexture (s : PbrShader) (t : Option ℕ) : PbrShader :=
  if s.flags.normalTexture then
    if s.lightingIsEnabled then
      { s with texBindings := { s.texBindings with normal := t } }
    else s
  else s

/-- setNormalTextureScale (line 797): asserts the flag; uploads only when
lighting is enabled. -/
def setNormalTextureScale (s : PbrShader) (v : ℚ) : PbrShader :=
  if s.flags.normalTexture then
    if s.lightingIsEnabled then
      { s with uniforms := { s.uniforms with normalTextureScale := some v } }
    else s
  else s

/-- bindEmissiveTexture (line 430): asserts the flag; binds independently
of lighting. -/
def bindEmissiveTexture (s : PbrShader) (t : Option ℕ) : PbrShader :=
  if s.flags.emissiveTexture then
    { s with texBindings := { s.texBindings with emissive := t } }
  else s

/-- bindClearCoatFactorTexture (line 440): asserts the compound flag;
binds only when lighting is enabled. -/
def bindClearCoatFactorTexture (s : PbrShader) (t : Option ℕ) : PbrShader :=
  if containsFlag s.flags .clearCoatTexture then
    if s.lightingIsEnabled then
      { s with texBindings := { s.texBindings with clearCoatFactor := t } }
    else s
  else s

/-- bindClearCoatRoughnessTexture (line 451): asserts the compound flag;
binds only when lighting is enabled. -/
def bindClearCoatRoughnessTexture (s : PbrShader) (t : Option ℕ) : PbrShader :=
  if containsFlag s.flags .clearCoatRoughnessTexture then
    if s.lightingIsEnabled then
      { s with texBindings := { s.texBindings with clearCoatRoughness := t } }
    else s
  else s

/-- bindClearCoatNormalTexture (line 464): asserts the compound flag;
binds only when lighting is enabled. -/
def bindClearCoatNormalTexture (s : PbrShader) (t : Option ℕ) : PbrShader :=
  if containsFlag s.flags .clearCoatNormalTexture then
    if s.lightingIsEnabled then
      { s with texBindings := { s.texBindings with clearCoatNormal := t } }
    else s
  else s

/-- bindSpecularLayerTexture (line 475): asserts the compound flag; binds
only when lighting is enabled. -/
def bindSpecularLayerTexture (s : PbrShader) (t : Option ℕ) : PbrShader :=
  if containsFlag s.flags .specularLayerTexture then
    if s.lightingIsEnabled then
      { s with texBindings := { s.texBindings with specularLayer := t } }
    else s
  else s

/-- bindSpecularLayerColorTexture (line 486): asserts the compound flag;
binds only when lighting is enabled. -/
def bindSpecularLayerColorTexture (s : PbrShader) (t : Option ℕ) : PbrShader :=
  if containsFlag s.flags .specularLayerColorTexture then
    if s.lightingIsEnabled then
      { s with texBindings := { s.texBindings with specularLayerColor := t } }
    else s
  else s

/-- bindAnisotropyLayerTexture (line 499): asserts the compound flag;
binds only when lighting is enabled. -/
def bindAnisotropyLayerTexture (s : PbrShader) (t : Option ℕ) : PbrShader :=
  if containsFlag s.flags .anisotropyLayerTexture then
    if s.lightingIsEnabled then
      { s with texBindings := { s.texBindings with anisotropyLayer := t } }
    else s
  else s

/-- bindIrradianceCubeMap (line 510): asserts IBL; binds unconditionally. -/
def bindIrradianceCubeMap (s : PbrShader) (t : Option ℕ) : PbrShader :=
  if s.flags.imageBasedLighting then
    { s with texBindings := { s.texBindings with irradianceMap := t } }
  else s

/-- bindBrdfLUT (line 519): asserts IBL; binds unconditionally. -/
def bindBrdfLUT (s : PbrShader) (t : Option ℕ) : PbrShader :=
  if s.flags.imageBasedLighting then
    { s with texBindings := { s.texBindings with brdfLUT := t } }
  else s

/-- bindPrefilteredMap (line 528): asserts IBL; binds unconditionally. -/
def bindPrefilteredMap (s : PbrShader) (t : Option ℕ) : PbrShader :=
  if s.flags.imageBasedLighting then
    { s with texBindings := { s.texBindings with prefilteredMap := t } }
  else s

/-- bindPointShadowMap (line 537): asserts the index is 0..2 and the
ShadowsVSM flag, then binds the cube map on the unit for that index. -/
def bindPointShadowMap (s : PbrShader) (i : ℕ) (t : Option ℕ) : PbrShader :=
  if i < 3 then
    if s.flags.shadowsVSM then
      match i with
      | 0 => { s with texBindings := { s.texBindings with shadowMap0 := t } }
      | 1 => { s with texBindings := { s.texBindings with shadowMap1 := t } }
      | _ => { s with texBindings := { s.texBindings with shadowMap2 := t } }
    else s
  else s

/-- The shadow-map binding on unit index i (0..2), for stating what a draw
bound. -/
def shadowBinding (s : PbrShader) : ℕ → Option ℕ
  | 0 => s.texBindings.shadowMap0
  | 1 => s.texBindings.shadowMap1
  | 2 => s.texBindings.shadowMap2
  | _ => none

end PbrShader

/-- The textured test of the constructor (lines 58-74): any base texture
channel, any compound layer-texture flag, or the anisotropy layer itself
(which always needs texture coordinates). -/
def computeIsTextured (f : PbrFlags) : Bool :=
  (f.baseColorTexture || f.noneRoughnessMetallicTexture || f.normalTexture
      || f.emissiveTexture)
    || (containsFlag f .clearCoatTexture || containsFlag f .clearCoatRoughnessTexture
      || containsFlag f .clearCoatNormalTexture)
    || (containsFlag f .specularLayerTexture || containsFlag f .specularLayerColorTexture)
    || f.anisotropyLayer
    || containsFlag f .transmissionLayerTexture
    || containsFlag f .volumeLayerThicknessTexture

/-- PbrShader::PbrShader (lines 44-391).  Shader-source assembly,
compilation, linking and uniform-location lookup act on the external GL
program and are omitted; the embedding keeps the derived lighting/textured
booleans and the one-time defaults the constructor pushes through its own
setters: identity transforms, neutral material values when lit, one
directional fill light per slot when lights exist, zero emissive, and
direct/IBL mixing weights of one half each only when both direct lights
and IBL are enabled (full weight 1 otherwise, the struct default from the
absent header, per the spec). -/
def mkPbrShader (flags : PbrFlags) (lightCount : ℕ) : PbrShader :=
  let lightingIsEnabled := decide (lightCount ≠ 0) || flags.imageBasedLighting
  let s : PbrShader :=
    { flags := flags
      lightCount := lightCount
      lightingIsEnabled := lightingIsEnabled
      isTextured := computeIsTextured flags
      uniforms := { lightColors := List.replicate lightCount ⟨0, 0, 0⟩
                    lightVectors := List.replicate lightCount ⟨0, 0, 0, 0⟩
                    lightRanges := List.replicate lightCount none } }
  let s := s.setViewMatrix Affine4.identity
  let s := s.setModelMatrix Affine4.identity
  let s := s.setProjectionMatrix ProjMat.identity
  let s :=
    if lightingIsEnabled then
      let s := s.setBaseColor ⟨7/10, 7/10, 7/10, 7/10⟩
      let s := s.setRoughness 0
      let s := s.setMetallic 1
      let s := s.setIndexOfRefraction (3/2)
      let s := if flags.normalTexture then s.setNormalTextureScale 1 else s
      let s := s.setNormalMatrix Mat3.identity
      let s :=
        if flags.clearCoatLayer then
          let s := (s.setClearCoatFactor 0).setClearCoatRoughness 0
          if containsFlag flags .clearCoatNormalTexture then
            s.setClearCoatNormalTextureScale 1
          else s
        else s
      let s :=
        if flags.specularLayer then
          (s.setSpecularLayerFactor 1).setSpecularLayerColorFactor ⟨1, 1, 1⟩
        else s
      if flags.anisotropyLayer then
        (s.setAnisotropyLayerFactor 0).setAnisotropyLayerDirection ⟨0⟩
      else s
    else s
  let s :=
    if lightCount ≠ 0 then
      let s := s.setLightVectors (List.replicate lightCount ⟨0, 0, -1, 0⟩)
      let s := s.setLightColors (List.replicate lightCount ⟨1, 1, 1⟩)
      s.setLightRanges (List.replicate lightCount none)
    else s
  let s := s.setEmissiveColor ⟨0, 0, 0⟩
  let s := s.setPbrEquationScales
    (if lightCount ≠ 0 ∧ flags.imageBasedLighting then
      ⟨1/2, 1/2, 1/2, 1/2⟩
    else ⟨1, 1, 1, 1⟩)
  if flags.debugDisplay then s.setDebugDisplay 0 else s

/-! ## Lights, drawable, variant cache and the draw call -/

/-- Modelled from the spec: a LightSetup record (the LightSetup header is
absent): color, intensity, the position-or-direction 4-vector whose fourth
component tags directional (0) versus positional (1), and the range (none
= infinite). -/
structure LightInfo where
  vector : Vec4
  color : Color3
  intensity : ℚ
  range : Option ℚ := none
deriving DecidableEq, Repr

/-- Modelled from the spec: getLightPositionRelativeToWorld (defined in the
absent LightSetup translation unit) resolves a light record to its
world-relative position-or-direction 4-vector, keeping the tag in the
fourth component; the record vector is taken to be world-relative already,
transformation from other frames being outside this core. -/
def getLightPositionRelativeToWorld (info : LightInfo) (_transform : Affine4)
    (_cameraMatrix : Affine4) : Vec4 :=
  info.vector

/-- PbrDrawable::updateShaderLightParameters (lines 548-561) acting on the
held program: gathers each record color, unscaled, and uploads the batch
through setLightColors. -/
def updateShaderLightParametersOn (s : PbrShader) (setup : List LightInfo) :
    PbrShader :=
  s.setLightColors (setup.map fun l => l.color)

/-- PbrDrawable::updateShaderLightDirectionParameters (lines 564-584)
acting on the held program: resolves each light to its world-relative
vector and multiplies the whole 4-vector by (2*w - 1), flipping directional
lights and leaving positional lights unchanged, then uploads the batch. -/
def updateShaderLightDirectionParametersOn (s : PbrShader)
    (setup : List LightInfo) (transform : Affine4) (cameraMatrix : Affine4) :
    PbrShader :=
  s.setLightVectors (setup.map fun l =>
    let pos := getLightPositionRelativeToWorld l transform cameraMatrix
    Vec4.scale (pos.w * 2 - 1) pos)

/-- Modelled from the spec: the image-based-lighting resource bundle
referenced by a drawable (irradiance map, BRDF lookup, prefiltered map
with its mip level count). -/
structure IblResource where
  irradianceMap : ℕ
  brdfLookup : ℕ
  prefilteredMap : ℕ
  mipLevels : ℕ
deriving DecidableEq, Repr

/-- The drawable state: capability flags, the cached material snapshot, the
referenced light setup, the lazily fetched program, and the referenced
IBL / shadow resources.  Mesh existence and the scene-node ids stand in for
the external scene-graph state the draw reads. -/
structure Drawable where
  flags : PbrFlags
  matCache : PbrMaterialCache
  lightSetup : List LightInfo
  shader : Option PbrShader := none
  meshExists : Bool := true
  meshHasTangent : Bool := false
  drawableId : ℕ := 0
  semanticId : ℕ := 0
  pbrIbl : Option IblResource := none
  hasShadowManager : Bool := false
  shadowMapKeys : Option (List ℕ) := none
deriving DecidableEq, Repr

/-- The shader-variant cache key: deterministic identity derived from
(lightCount, flag-bits-as-integer) as formatted by getShaderKey
(line 516); the format template lives in the absent header, so the key is
kept structured per the spec variant-key contract. -/
abbrev ShaderKey := ℕ × ℕ

/-- PbrDrawable::getShaderKey (line 516). -/
def getShaderKey (lightCount : ℕ) (flags : PbrFlags) : ShaderKey :=
  (lightCount, flagsToNat flags)

/-- The process-held shader manager: reference-counted resources keyed by
shader key, modelled as an association list (most recent insertion
first). -/
abbrev ShaderManager := List (ShaderKey × PbrShader)

/-- Resource lookup in the shader manager. -/
def managerGet (mgr : ShaderManager) (k : ShaderKey) : Option PbrShader :=
  (mgr.find? fun e => decide (e.1 = k)).map fun e => e.2

/-- Resource insertion in the shader manager. -/
def managerSet (mgr : ShaderManager) (k : ShaderKey) (s : PbrShader) :
    ShaderManager :=
  (k, s) :: mgr

/-- The reuse guard of updateShader (line 525): the held program exists and
its light count and flags both match. -/
def shaderMatches (sh : Option PbrShader) (lightCount : ℕ) (flags : PbrFlags) :
    Bool :=
  match sh with
  | some s => decide (s.lightCount = lightCount) && decide (s.flags = flags)
  | none => false

/-- The result of updateShader: the drawable now holding a program, the
possibly grown manager, and whether the internal sanity assertion at line
540 (fetched program exists and matches) held. -/
structure UpdateShaderOut where
  drawable : Drawable
  mgr : ShaderManager
  internalAssertOk : Bool
deriving DecidableEq, Repr

/-- PbrDrawable::updateShader (lines 523-545): reuse the held program when
its key still matches; otherwise fetch from the manager by key, building
and inserting a fresh variant on a miss, and check the internal assertion
that the fetched program matches the requested key. -/
def updateShader (d : Drawable) (mgr : ShaderManager) : UpdateShaderOut :=
  if shaderMatches d.shader d.lightSetup.length d.flags then ⟨d, mgr, true⟩
  else
    match managerGet mgr (getShaderKey d.lightSetup.length d.flags) with
    | some s =>
      ⟨{ d with shader := some s }, mgr,
        shaderMatches (some s) d.lightSetup.length d.flags⟩
    | none =>
      ⟨{ d with shader := some (mkPbrShader d.flags d.lightSetup.length) },
        managerSet mgr (getShaderKey d.lightSetup.length d.flags)
          (mkPbrShader d.flags d.lightSetup.length),
        shaderMatches (some (mkPbrShader d.flags d.lightSetup.length))
          d.lightSetup.length d.flags⟩

/-- The variant-cache well-formedness invariant: every cached program was
inserted under the key derived from its own light count and flags. -/
def CacheWF (mgr : ShaderManager) : Prop :=
  ∀ k s, managerGet mgr k = some s → s.lightCount = k.1 ∧ flagsToNat s.flags = k.2

/-- PbrDrawable::setLightSetup (line 324); resolving the key to the shared
light list is the external resource manager, so the resolved list is passed
directly. -/
def setLightSetup (d : Drawable) (setup : List LightInfo) : Drawable :=
  { d with lightSetup := setup }

/-- PbrDrawable::setShadowData (lines 586-597): asserts the flag argument
is the one recognized shadow flag (returning with nothing changed
otherwise), then stores the manager and key references and ORs the flag
in.  No key-count check happens here. -/
def setShadowData (d : Drawable) (keys : List ℕ) (shadowFlag : FlagConst) :
    Drawable × Option AssertKind :=
  if shadowFlag = FlagConst.shadowsVSM then
    ({ d with
        hasShadowManager := true
        shadowMapKeys := some keys
        flags := orFlag d.flags shadowFlag }, none)
  else (d, some .shadowFlagInvalid)

/-- PbrDrawable::PbrDrawable (lines 21-45): extract the material into
flags and cache, then OR the IBL flag in when an IBL resource was
supplied; the program fetch is deferred. -/
def mkPbrDrawable (meshExists meshHasTangent : Bool)
    (lightSetup : List LightInfo) (m : MaterialDescription)
    (drawableId semanticId : ℕ) (pbrIbl : Option IblResource) :
    Except AssertKind Drawable :=
  match setMaterialValuesInternal meshHasTangent m with
  | .error e => .error e
  | .ok (fl, cache) =>
    let fl := if pbrIbl.isSome then orFlag fl .imageBasedLighting else fl
    .ok { flags := fl
          matCache := cache
          lightSetup := lightSetup
          meshExists := meshExists
          meshHasTangent := meshHasTangent
          drawableId := drawableId
          semanticId := semanticId
          pbrIbl := pbrIbl }

/-- The GL front-face winding convention. -/
inductive FrontFace where
  | clockWise
  | counterClockWise
deriving DecidableEq, Repr

/-- Global GL renderer state mutated by a draw. -/
structure GLState where
  frontFace : FrontFace := .counterClockWise
deriving DecidableEq, Repr

/-- The render camera data a draw reads: the camera matrix and its
externally computed inverse, the opaque projection matrix, the camera
world position from the scene graph, and the drawable-ids mode of the
render camera. -/
structure Camera where
  cameraMatrix : Affine4 := Affine4.identity
  cameraMatrixInv : Affine4 := Affine4.identity
  projection : ProjMat := .identity
  worldPos : Vec3 := ⟨0, 0, 0⟩
  useDrawableIds : Bool := false
deriving DecidableEq, Repr

/-- The observable outcome of one draw() call: the drawable (with its
mutated program), the manager, the final GL state, which assertion ended
the call early (none when it ran to completion), whether the backend draw
was issued, and the front-face convention in effect at the moment it was
issued. -/
structure DrawOut where
  drawable : Drawable
  mgr : ShaderManager
  gl : GLState
  abortedOn : Option AssertKind := none
  drawIssued : Bool := false
  ffAtDraw : Option FrontFace := none
deriving DecidableEq, Repr

/-- The object-id selection of draw() (lines 379-383): the drawable id
when the render camera uses drawable ids, else 0 when the flags contain
the compound InstancedObjectId constant, else the scene-node semantic
id. -/
def drawObjectId (d : Drawable) (cam : Camera) : ℕ :=
  if cam.useDrawableIds then d.drawableId
  else if containsFlag d.flags .instancedObjectId then 0
  else d.semanticId

/-- Lines 375-394 of draw(): the unconditional uniform uploads (object id,
projection/view/model/normal matrices, camera world position, and the
scalar/color material snapshot fields). -/
def uploadCommonUniforms (s : PbrShader) (d : Drawable) (cam : Camera)
    (modelMatrix : Affine4) (normalMatrix : Mat3) : PbrShader :=
  let s := s.setObjectId (drawObjectId d cam)
  let s := s.setProjectionMatrix cam.projection
  let s := s.setViewMatrix cam.cameraMatrix
  let s := s.setModelMatrix modelMatrix
  let s := s.setNormalMatrix normalMatrix
  let s := s.setCameraWorldPosition cam.worldPos
  let s := s.setBaseColor d.matCache.baseColor
  let s := s.setRoughness d.matCache.roughness
  let s := s.setMetallic d.matCache.metalness
  let s := s.setIndexOfRefraction d.matCache.iorIndex
  s.setEmissiveColor d.matCache.emissiveColor

/-- Lines 401-465 of draw(): per-feature texture and layer-uniform
uploads, each strictly guarded by its capability flag; the sub-texture
guards are the compound superset tests. -/
def bindMaterialTextures (s : PbrShader) (d : Drawable) : PbrShader :=
  let s :=
    if d.flags.baseColorTexture then
      s.bindBaseColorTexture d.matCache.baseColorTexture
    else s
  let s :=
    if d.flags.noneRoughnessMetallicTexture then
      s.bindMetallicRoughnessTexture d.matCache.noneRoughnessMetallicTexture
    else s
  let s :=
    if d.flags.normalTexture then
      (s.bindNormalTexture d.matCache.normalTexture).setNormalTextureScale
        d.matCache.normalTextureScale
    else s
  let s :=
    if d.flags.emissiveTexture then
      s.bindEmissiveTexture d.matCache.emissiveTexture
    else s
  let s :=
    if d.flags.textureTransformation then
      s.setTextureMatrix d.matCache.textureMatrix
    else s
  let s :=
    if d.flags.clearCoatLayer then
      let s := s.setClearCoatFactor d.matCache.clearCoat.factor
      let s := s.setClearCoatRoughness d.matCache.clearCoat.roughnessFactor
      let s := s.setClearCoatNormalTextureScale d.matCache.clearCoat.normalTextureScale
      let s :=
        if containsFlag d.flags .clearCoatTexture then
          s.bindClearCoatFactorTexture d.matCache.clearCoat.texture
        else s
      let s :=
        if containsFlag d.flags .clearCoatRoughnessTexture then
          s.bindClearCoatRoughnessTexture d.matCache.clearCoat.roughnessTexture
        else s
      if containsFlag d.flags .clearCoatNormalTexture then
        s.bindClearCoatNormalTexture d.matCache.clearCoat.normalTexture
      else s
    else s
  let s :=
    if d.flags.specularLayer then
      let s := s.setSpecularLayerFactor d.matCache.specularLayer.factor
      let s := s.setSpecularLayerColorFactor d.matCache.specularLayer.colorFactor
      let s :=
        if containsFlag d.flags .specularLayerTexture then
          s.bindSpecularLayerTexture d.matCache.specularLayer.texture
        else s
      if containsFlag d.flags .specularLayerColorTexture then
        s.bindSpecularLayerColorTexture d.matCache.specularLayer.colorTexture
      else s
    else s
  if d.flags.anisotropyLayer then
    let s := s.setAnisotropyLayerFactor d.matCache.anisotropyLayer.factor
    let s := s.setAnisotropyLayerDirection d.matCache.anisotropyLayer.direction
    if containsFlag d.flags .anisotropyLayerTexture then
      s.bindAnisotropyLayerTexture d.matCache.anisotropyLayer.texture
    else s
  else s

/-- Lines 470-477 of draw(): the IBL resource binds and the mip-level
upload. -/
def bindIblSection (s : PbrShader) (r : IblResource) : PbrShader :=
  let s := s.bindIrradianceCubeMap (some r.irradianceMap)
  let s := s.bindBrdfLUT (some r.brdfLookup)
  let s := s.bindPrefilteredMap (some r.prefilteredMap)
  s.setPrefilteredMapMipLevels r.mipLevels

/-- The shadow-map loop of draw() (lines 485-496): each key resolves
through the external shadow-map manager to a cube map (resolution always
succeeds per the resource contract) and is bound on its index. -/
def bindShadowMapsSection (s : PbrShader) (keys : List ℕ) : PbrShader :=
  (keys.enum).foldl (fun s e => s.bindPointShadowMap e.1 (some e.2)) s

/-- The tail of draw() after the shadow section: issue the backend draw
call, then reset the winding convention to counter-clockwise when the
determinant was negative (lines 499-505). -/
def drawTail (d : Drawable) (mgr : ShaderManager) (gl : GLState) (det : ℚ)
    (s : PbrShader) : DrawOut :=
  let ffAt := gl.frontFace
  let gl2 := if det < 0 then { gl with frontFace := FrontFace.counterClockWise } else gl
  { drawable := { d with shader := some s }
    mgr := mgr
    gl := gl2
    abortedOn := none
    drawIssued := true
    ffAtDraw := some ffAt }

/-- The shadow section of draw() (lines 480-497): internal assertion that
manager and keys are attached, the shadow-count precondition (early return
when more than 3 sources are configured), then the binding loop. -/
def drawShadowSection (d : Drawable) (mgr : ShaderManager) (gl : GLState)
    (det : ℚ) (s : PbrShader) : DrawOut :=
  if d.flags.shadowsVSM then
    if d.hasShadowManager then
      match d.shadowMapKeys with
      | none =>
        { drawable := { d with shader := some s }, mgr := mgr, gl := gl
          abortedOn := some .shadowResourcesMissing }
      | some keys =>
        if 3 < keys.length then
          { drawable := { d with shader := some s }, mgr := mgr, gl := gl
            abortedOn := some .shadowCountExceeded }
        else drawTail d mgr gl det (bindShadowMapsSection s keys)
    else
      { drawable := { d with shader := some s }, mgr := mgr, gl := gl
        abortedOn := some .shadowResourcesMissing }
  else drawTail d mgr gl det s

/-- The IBL section of draw() (lines 468-478): internal assertion that the
IBL resource is attached, then the binds, then the shadow section. -/
def drawIblSection (d : Drawable) (mgr : ShaderManager) (gl : GLState)
    (det : ℚ) (s : PbrShader) : DrawOut :=
  if d.flags.imageBasedLighting then
    match d.pbrIbl with
    | none =>
      { drawable := { d with shader := some s }, mgr := mgr, gl := gl
        abortedOn := some .iblResourceMissing }
    | some r => drawShadowSection d mgr gl det (bindIblSection s r)
  else drawShadowSection d mgr gl det s

/-- PbrDrawable::draw (lines 328-514): the mesh-existence precondition,
the program refresh and light uploads, the model matrix and its
rotation/scale determinant, the winding flip for negative determinants,
the uniform and texture uploads, the IBL and shadow sections, the backend
draw and the winding reset. -/
def draw (d0 : Drawable) (mgr0 : ShaderManager) (cam : Camera)
    (transform : Affine4) (gl0 : GLState) : DrawOut :=
  if d0.meshExists then
    let u := updateShader d0 mgr0
    if u.internalAssertOk then
      match u.drawable.shader with
      | none =>
        { drawable := u.drawable, mgr := u.mgr, gl := gl0
          abortedOn := some .internalShaderMissing }
      | some s0 =>
        let s1 := updateShaderLightParametersOn s0 u.drawable.lightSetup
        let s2 := updateShaderLightDirectionParametersOn s1 u.drawable.lightSetup
          transform cam.cameraMatrix
        let modelMatrix := cam.cameraMatrixInv.mul transform
        let rotScale := modelMatrix.linear
        let normalDet := rotScale.det
        let normalMatrix := rotScale.comatrix.divScalar normalDet
        let gl1 :=
          if normalDet < 0 then { gl0 with frontFace := FrontFace.clockWise }
          else gl0
        let s3 := uploadCommonUniforms s2 u.drawable cam modelMatrix normalMatrix
        let s4 := bindMaterialTextures s3 u.drawable
        drawIblSection u.drawable u.mgr gl1 normalDet s4
    else
      { drawable := u.drawable, mgr := u.mgr, gl := gl0
        abortedOn := some .internalShaderMissing }
  else { drawable := d0, mgr := mgr0, gl := gl0, abortedOn := some .meshMissing }

/-- A material description lacking the hasPerVertexObjectId attribute but
otherwise populated. -/
def matNoPerVertexId : MaterialDescription :=
  { baseColor := some ⟨1, 0, 0, 1⟩
    roughness := some (1/4)
    baseColorTexture := some 5 }

/-- A material whose anisotropy layer carries only a strength value. -/
def matAnisoDemo : MaterialDescription :=
  { hasPerVertexObjectId := some false
    anisotropyLayer := some { anisotropyStrength := some (1/2) } }

/-- A drawable with the shadow variant enabled, a shadow manager attached
and four shadow-map keys configured. -/
def drawableShadow4 : Drawable :=
  { flags := { objectId := true, shadowsVSM := true }
    matCache := {}
    lightSetup := []
    hasShadowManager := true
    shadowMapKeys := some [10, 11, 12, 13] }

/-- A camera whose inverted camera matrix mirrors the x axis, so the
model-relative-to-camera rotation/scale determinant of an identity
transform is -1. -/
def cameraMirror : Camera :=
  { cameraMatrixInv := { linear := ⟨-1, 0, 0, 0, 1, 0, 0, 0, 1⟩
                         translation := ⟨0, 0, 0⟩ } }

/-! ## Claim C1 -/

/-- The two-light setup of the claim C4 examples: a positional light with
raw vector (1,2,3,1) and a directional light with raw vector (0,0,-1,0). -/
def setupC4 : List LightInfo :=
  [{ vector := ⟨1, 2, 3, 1⟩, color := ⟨1, 1, 1⟩, intensity := 1 },
   { vector := ⟨0, 0, -1, 0⟩, color := ⟨1, 1, 1⟩, intensity := 1 }]

/-- A one-light setup whose record has intensity 2, distinguishing the
record color from the intensity-scaled color. -/
def setupC8 : List LightInfo :=
  [{ vector := ⟨0, 0, -1, 0⟩, color := ⟨1, 0, 0⟩, intensity := 2 }]

/-- A drawable with no shadow state attached yet. -/
def drawablePlain : Drawable :=
  { flags := { objectId := true }
    matCache := {}
    lightSetup := [] }

/-- Capability flags with every lit texture channel and layer feature of
claim C10 enabled and image-based lighting disabled. -/
def flagsC10 : PbrFlags :=
  { objectId := true
    baseColorTexture := true
    noneRoughnessMetallicTexture := true
    normalTexture := true
    clearCoatLayer := true
    clearCoatTexture := true
    clearCoatRoughnessTexture := true
    clearCoatNormalTexture := true
    specularLayer := true
    specularLayerTexture := true
    specularLayerColorTexture := true
    anisotropyLayer := true
    anisotropyLayerTexture := true }

/-- The resolved anisotropy strength: the anisotropyStrength attribute or,
only when that name is absent, the legacy anisotropy alias; absent both,
the default 0. -/
def resolvedAnisotropyStrength (a : AnisotropyLayerDesc) : ℚ :=
  match a.anisotropyStrength with
  | some v => v
  | none => a.anisotropy.getD 0

/-- The resolved anisotropy rotation angle: the anisotropyRotation
attribute or, when absent, the legacy anisotropyDirection alias; absent
both, the default 0. -/
def resolvedAnisotropyRotation (a : AnisotropyLayerDesc) : ℚ :=
  match a.anisotropyRotation with
  | some v => v
  | none => a.anisotropyDirection.getD 0

/-- The anisotropy layer of the demo material: strength 1/2 through the
primary attribute name, everything else absent. -/
def anisoDemoLayer : AnisotropyLayerDesc :=
  { anisotropyStrength := some (1/2) }

theorem encodeBits_injOn {l₁ l₂ : List Bool} (hlen : l₁.length = l₂.length)
    (h : encodeBits l₁ = encodeBits l₂) : l₁ = l₂ := by
  induction l₁ generalizing l₂ with
  | nil => cases l₂ with
    | nil => rfl
    | cons b t => simp at hlen
  | cons b t ih =>
    cases l₂ with
    | nil => simp at hlen
    | cons b' t' =>
      simp only [encodeBits] at h
      have hb : b = b' := by
        cases b <;> cases b' <;> simp [Bool.toNat] at h ⊢ <;> omega
      subst hb
      have ht : encodeBits t = encodeBits t' := by
        cases b <;> simp [Bool.toNat] at h <;> omega
      simp only [List.length_cons, Nat.succ.injEq] at hlen
      exact congrArg (b :: ·) (ih hlen ht)

theorem toBits_inj {f g : PbrFlags} (h : f.toBits = g.toBits) : f = g := by
  cases f
  cases g
  simp only [PbrFlags.toBits, List.cons.injEq, and_true] at h
  obtain ⟨h1, h2, h3, h4, h5, h6, h7, h8, h9, h10, h11, h12, h13, h14, h15,
    h16, h17, h18, h19, h20, h21, h22, h23, h24, h25⟩ := h
  subst h1 h2 h3 h4 h5 h6 h7 h8 h9 h10 h11 h12 h13 h14 h15 h16 h17 h18 h19
    h20 h21 h22 h23 h24 h25
  rfl

theorem flagsToNat_inj {f g : PbrFlags} (h : flagsToNat f = flagsToNat g) :
    f = g := by
  refine toBits_inj (encodeBits_injOn ?_ h)
  cases f
  cases g
  rfl

/-! ## Material description

Magnum MaterialData is an attribute bag probed by typed name lookups
(findAttribute) and by accessors with library defaults.  The embedding
pre-flattens the bag into the recognized attribute names enumerated in the
spec external-interface section; an absent attribute is none.  Texture
pointers are optional numeric ids. -/

namespace PbrShader

@[simp] theorem setProjectionMatrix_flags (s : PbrShader) (v : ProjMat) :
    (s.setProjectionMatrix v).flags = s.flags := by
  unfold setProjectionMatrix; (repeat' split) <;> rfl

@[simp] theorem setProjectionMatrix_lightCount (s : PbrShader) (v : ProjMat) :
    (s.setProjectionMatrix v).lightCount = s.lightCount := by
  unfold setProjectionMatrix; (repeat' split) <;> rfl

@[simp] theorem setProjectionMatrix_lite (s : PbrShader) (v : ProjMat) :
    (s.setProjectionMatrix v).lightingIsEnabled = s.lightingIsEnabled := by
  unfold setProjectionMatrix; (repeat' split) <;> rfl

@[simp] theorem setProjectionMatrix_objId (s : PbrShader) (v : ProjMat) :
    (s.setProjectionMatrix v).uniforms.objectId = s.uniforms.objectId := by
  unfold setProjectionMatrix; (repeat' split) <;> rfl

@[simp] theorem setNormalMatrix_flags (s : PbrShader) (v : Mat3) :
    (s.setNormalMatrix v).flags = s.flags := by
  unfold setNormalMatrix; (repeat' split) <;> rfl

@[simp] theorem setNormalMatrix_lightCount (s : PbrShader) (v : Mat3) :
    (s.setNormalMatrix v).lightCount = s.lightCount := by
  unfold setNormalMatrix; (repeat' split) <;> rfl

@[simp] theorem setNormalMatrix_lite (s : PbrShader) (v : Mat3) :
    (s.setNormalMatrix v).lightingIsEnabled = s.lightingIsEnabled := by
  unfold setNormalMatrix; (repeat' split) <;> rfl

@[simp] theorem setNormalMatrix_objId (s : PbrShader) (v : Mat3) :
    (s.setNormalMatrix v).uniforms.objectId = s.uniforms.objectId := by
  unfold setNormalMatrix; (repeat' split) <;> rfl

@[simp] theorem setViewMatrix_flags (s : PbrShader) (v : Affine4) :
    (s.setViewMatrix v).flags = s.flags := by
  unfold setViewMatrix; (repeat' split) <;> rfl

@[simp] theorem setViewMatrix_lightCount (s : PbrShader) (v : Affine4) :
    (s.setViewMatrix v).lightCount = s.lightCount := by
  unfold setViewMatrix; (repeat' split) <;> rfl

@[simp] theorem setViewMatrix_lite (s : PbrShader) (v : Affine4) :
    (s.setViewMatrix v).lightingIsEnabled = s.lightingIsEnabled := by
  unfold setViewMatrix; (repeat' split) <;> rfl

@[simp] theorem setViewMatrix_objId (s : PbrShader) (v : Affine4) :
    (s.setViewMatrix v).uniforms.objectId = s.uniforms.objectId := by
  unfold setViewMatrix; (repeat' split) <;> rfl

@[simp] theorem setModelMatrix_flags (s : PbrShader) (v : Affine4) :
    (s.setModelMatrix v).flags = s.flags := by
  unfold setModelMatrix; (repeat' split) <;> rfl

@[simp] theorem setModelMatrix_lightCount (s : PbrShader) (v : Affine4) :
    (s.setModelMatrix v).lightCount = s.lightCount := by
  unfold setModelMatrix; (repeat' split) <;> rfl

@[simp] theorem setModelMatrix_lite (s : PbrShader) (v : Affine4) :
    (s.setModelMatrix v).lightingIsEnabled = s.lightingIsEnabled := by
  unfold setModelMatrix; (repeat' split) <;> rfl

@[simp] theorem setModelMatrix_objId (s : PbrShader) (v : Affine4) :
    (s.setModelMatrix v).uniforms.objectId = s.uniforms.objectId := by
  unfold setModelMatrix; (repeat' split) <;> rfl

@[simp] theorem setObjectId_flags (s : PbrShader) (v : ℕ) :
    (s.setObjectId v).flags = s.flags := by
  unfold setObjectId; (repeat' split) <;> rfl

@[simp] theorem setObjectId_lightCount (s : PbrShader) (v : ℕ) :
    (s.setObjectId v).lightCount = s.lightCount := by
  unfold setObjectId; (repeat' split) <;> rfl

@[simp] theorem setObjectId_lite (s : PbrShader) (v : ℕ) :
    (s.setObjectId v).lightingIsEnabled = s.lightingIsEnabled := by
  unfold setObjectId; (repeat' split) <;> rfl

@[simp] theorem setPrefilteredMapMipLevels_flags (s : PbrShader) (v : ℕ) :
    (s.setPrefilteredMapMipLevels v).flags = s.flags := by
  unfold setPrefilteredMapMipLevels; (repeat' split) <;> rfl

@[simp] theorem setPrefilteredMapMipLevels_lightCount (s : PbrShader) (v : ℕ) :
    (s.setPrefilteredMapMipLevels v).lightCount = s.lightCount := by
  unfold setPrefilteredMapMipLevels; (repeat' split) <;> rfl

@[simp] theorem setPrefilteredMapMipLevels_lite (s : PbrShader) (v : ℕ) :
    (s.setPrefilteredMapMipLevels v).lightingIsEnabled = s.lightingIsEnabled := by
  unfold setPrefilteredMapMipLevels; (repeat' split) <;> rfl

@[simp] theorem setPrefilteredMapMipLevels_objId (s : PbrShader) (v : ℕ) :
    (s.setPrefilteredMapMipLevels v).uniforms.objectId = s.uniforms.objectId := by
  unfold setPrefilteredMapMipLevels; (repeat' split) <;> rfl

@[simp] theorem setBaseColor_flags (s : PbrShader) (v : Color4) :
    (s.setBaseColor v).flags = s.flags := by
  unfold setBaseColor; (repeat' split) <;> rfl

@[simp] theorem setBaseColor_lightCount (s : PbrShader) (v : Color4) :
    (s.setBaseColor v).lightCount = s.lightCount := by
  unfold setBaseColor; (repeat' split) <;> rfl

@[simp] theorem setBaseColor_lite (s : PbrShader) (v : Color4) :
    (s.setBaseColor v).lightingIsEnabled = s.lightingIsEnabled := by
  unfold setBaseColor; (repeat' split) <;> rfl

@[simp] theorem setBaseColor_objId (s : PbrShader) (v : Color4) :
    (s.setBaseColor v).uniforms.objectId = s.uniforms.objectId := by
  unfold setBaseColor; (repeat' split) <;> rfl

@[simp] theorem setEmissiveColor_flags (s : PbrShader) (v : Color3) :
    (s.setEmissiveColor v).flags = s.flags := by
  unfold setEmissiveColor; (repeat' split) <;> rfl

@[simp] theorem setEmissiveColor_lightCount (s : PbrShader) (v : Color3) :
    (s.setEmissiveColor v).lightCount = s.lightCount := by
  unfold setEmissiveColor; (repeat' split) <;> rfl

@[simp] theorem setEmissiveColor_lite (s : PbrShader) (v : Color3) :
    (s.setEmissiveColor v).lightingIsEnabled = s.lightingIsEnabled := by
  unfold setEmissiveColor; (repeat' split) <;> rfl

@[simp] theorem setEmissiveColor_objId (s : PbrShader) (v : Color3) :
    (s.setEmissiveColor v).uniforms.objectId = s.uniforms.objectId := by
  unfold setEmissiveColor; (repeat' split) <;> rfl

@[simp] theorem setRoughness_flags (s : PbrShader) (v : ℚ) :
    (s.setRoughness v).flags = s.flags := by
  unfold setRoughness; (repeat' split) <;> rfl

@[simp] theorem setRoughness_lightCount (s : PbrShader) (v : ℚ) :
    (s.setRoughness v).lightCount = s.lightCount := by
  unfold setRoughness; (repeat' split) <;> rfl

@[simp] theorem setRoughness_lite (s : PbrShader) (v : ℚ) :
    (s.setRoughness v).lightingIsEnabled = s.lightingIsEnabled := by
  unfold setRoughness; (repeat' split) <;> rfl

@[simp] theorem setRoughness_objId (s : PbrShader) (v : ℚ) :
    (s.setRoughness v).uniforms.objectId = s.uniforms.objectId := by
  unfold setRoughness; (repeat' split) <;> rfl

@[simp] theorem setMetallic_flags (s : PbrShader) (v : ℚ) :
    (s.setMetallic v).flags = s.flags := by
  unfold setMetallic; (repeat' split) <;> rfl

@[simp] theorem setMetallic_lightCount (s : PbrShader) (v : ℚ) :
    (s.setMetallic v).lightCount = s.lightCount := by
  unfold setMetallic; (repeat' split) <;> rfl

@[simp] theorem setMetallic_lite (s : PbrShader) (v : ℚ) :
    (s.setMetallic v).lightingIsEnabled = s.lightingIsEnabled := by
  unfold setMetallic; (repeat' split) <;> rfl

@[simp] theorem setMetallic_objId (s : PbrShader) (v : ℚ) :
    (s.setMetallic v).uniforms.objectId = s.uniforms.objectId := by
  unfold setMetallic; (repeat' split) <;> rfl

@[simp] theorem setIndexOfRefraction_flags (s : PbrShader) (v : ℚ) :
    (s.setIndexOfRefraction v).flags = s.flags := by
  unfold setIndexOfRefraction; (repeat' split) <;> rfl

@[simp] theorem setIndexOfRefraction_lightCount (s : PbrShader) (v : ℚ) :
    (s.setIndexOfRefraction v).lightCount = s.lightCount := by
  unfold setIndexOfRefraction; (repeat' split) <;> rfl

@[simp] theorem setIndexOfRefraction_lite (s : PbrShader) (v : ℚ) :
    (s.setIndexOfRefraction v).lightingIsEnabled = s.lightingIsEnabled := by
  unfold setIndexOfRefraction; (repeat' split) <;> rfl

@[simp] theorem setIndexOfRefraction_objId (s : PbrShader) (v : ℚ) :
    (s.setIndexOfRefraction v).uniforms.objectId = s.uniforms.objectId := by
  unfold setIndexOfRefraction; (repeat' split) <;> rfl

@[simp] theorem setClearCoatFactor_flags (s : PbrShader) (v : ℚ) :
    (s.setClearCoatFactor v).flags = s.flags := by
  unfold setClearCoatFactor; (repeat' split) <;> rfl

@[simp] theorem setClearCoatFactor_lightCount (s : PbrShader) (v : ℚ) :
    (s.setClearCoatFactor v).lightCount = s.lightCount := by
  unfold setClearCoatFactor; (repeat' split) <;> rfl

@[simp] theorem setClearCoatFactor_lite (s : PbrShader) (v : ℚ) :
    (s.setClearCoatFactor v).lightingIsEnabled = s.lightingIsEnabled := by
  unfold setClearCoatFactor; (repeat' split) <;> rfl

@[simp] theorem setClearCoatFactor_objId (s : PbrShader) (v : ℚ) :
    (s.setClearCoatFactor v).uniforms.objectId = s.uniforms.objectId := by
  unfold setClearCoatFactor; (repeat' split) <;> rfl

@[simp] theorem setClearCoatRoughness_flags (s : PbrShader) (v : ℚ) :
    (s.setClearCoatRoughness v).flags = s.flags := by
  unfold setClearCoatRoughness; (repeat' split) <;> rfl

@[simp] theorem setClearCoatRoughness_lightCount (s : PbrShader) (v : ℚ) :
    (s.setClearCoatRoughness v).lightCount = s.lightCount := by
  unfold setClearCoatRoughness; (repeat' split) <;> rfl

@[simp] theorem setClearCoatRoughness_lite (s : PbrShader) (v : ℚ) :
    (s.setClearCoatRoughness v).lightingIsEnabled = s.lightingIsEnabled := by
  unfold setClearCoatRoughness; (repeat' split) <;> rfl

@[simp] theorem setClearCoatRoughness_objId (s : PbrShader) (v : ℚ) :
    (s.setClearCoatRoughness v).uniforms.objectId = s.uniforms.objectId := by
  unfold setClearCoatRoughness; (repeat' split) <;> rfl

@[simp] theorem setClearCoatNormalTextureScale_flags (s : PbrShader) (v : ℚ) :
    (s.setClearCoatNormalTextureScale v).flags = s.flags := by
  unfold setClearCoatNormalTextureScale; (repeat' split) <;> rfl

@[simp] theorem setClearCoatNormalTextureScale_lightCount (s : PbrShader) (v : ℚ) :
    (s.setClearCoatNormalTextureScale v).lightCount = s.lightCount := by
  unfold setClearCoatNormalTextureScale; (repeat' split) <;> rfl

@[simp] theorem setClearCoatNormalTextureScale_lite (s : PbrShader) (v : ℚ) :
    (s.setClearCoatNormalTextureScale v).lightingIsEnabled = s.lightingIsEnabled := by
  unfold setClearCoatNormalTextureScale; (repeat' split) <;> rfl

@[simp] theorem setClearCoatNormalTextureScale_objId (s : PbrShader) (v : ℚ) :
    (s.setClearCoatNormalTextureScale v).uniforms.objectId = s.uniforms.objectId := by
  unfold setClearCoatNormalTextureScale; (repeat' split) <;> rfl

@[simp] theorem setSpecularLayerFactor_flags (s : PbrShader) (v : ℚ) :
    (s.setSpecularLayerFactor v).flags = s.flags := by
  unfold setSpecularLayerFactor; (repeat' split) <;> rfl

@[simp] theorem setSpecularLayerFactor_lightCount (s : PbrShader) (v : ℚ) :
    (s.setSpecularLayerFactor v).lightCount = s.lightCount := by
  unfold setSpecularLayerFactor; (repeat' split) <;> rfl

@[simp] theorem setSpecularLayerFactor_lite (s : PbrShader) (v : ℚ) :
    (s.setSpecularLayerFactor v).lightingIsEnabled = s.lightingIsEnabled := by
  unfold setSpecularLayerFactor; (repeat' split) <;> rfl

@[simp] theorem setSpecularLayerFactor_objId (s : PbrShader) (v : ℚ) :
    (s.setSpecularLayerFactor v).uniforms.objectId = s.uniforms.objectId := by
  unfold setSpecularLayerFactor; (repeat' split) <;> rfl

@[simp] theorem setAnisotropyLayerFactor_flags (s : PbrShader) (v : ℚ) :
    (s.setAnisotropyLayerFactor v).flags = s.flags := by
  unfold setAnisotropyLayerFactor; (repeat' split) <;> rfl

@[simp] theorem setAnisotropyLayerFactor_lightCount (s : PbrShader) (v : ℚ) :
    (s.setAnisotropyLayerFactor v).lightCount = s.lightCount := by
  unfold setAnisotropyLayerFactor; (repeat' split) <;> rfl

@[simp] theorem setAnisotropyLayerFactor_lite (s : PbrShader) (v : ℚ) :
    (s.setAnisotropyLayerFactor v).lightingIsEnabled = s.lightingIsEnabled := by
  unfold setAnisotropyLayerFactor; (repeat' split) <;> rfl

@[simp] theorem setAnisotropyLayerFactor_objId (s : PbrShader) (v : ℚ) :
    (s.setAnisotropyLayerFactor v).uniforms.objectId = s.uniforms.objectId := by
  unfold setAnisotropyLayerFactor; (repeat' split) <;> rfl

@[simp] theorem setAnisotropyLayerDirection_flags (s : PbrShader) (v : RotVec) :
    (s.setAnisotropyLayerDirection v).flags = s.flags := by
  unfold setAnisotropyLayerDirection; (repeat' split) <;> rfl

@[simp] theorem setAnisotropyLayerDirection_lightCount (s : PbrShader) (v : RotVec) :
    (s.setAnisotropyLayerDirection v).lightCount = s.lightCount := by
  unfold setAnisotropyLayerDirection; (repeat' split) <;> rfl

@[simp] theorem setAnisotropyLayerDirection_lite (s : PbrShader) (v : RotVec) :
    (s.setAnisotropyLayerDirection v).lightingIsEnabled = s.lightingIsEnabled := by
  unfold setAnisotropyLayerDirection; (repeat' split) <;> rfl

@[simp] theorem setAnisotropyLayerDirection_objId (s : PbrShader) (v : RotVec) :
    (s.setAnisotropyLayerDirection v).uniforms.objectId = s.uniforms.objectId := by
  unfold setAnisotropyLayerDirection; (repeat' split) <;> rfl

@[simp] theorem setSpecularLayerColorFactor_flags (s : PbrShader) (v : Color3) :
    (s.setSpecularLayerColorFactor v).flags = s.flags := by
  unfold setSpecularLayerColorFactor; (repeat' split) <;> rfl

@[simp] theorem setSpecularLayerColorFactor_lightCount (s : PbrShader) (v : Color3) :
    (s.setSpecularLayerColorFactor v).lightCount = s.lightCount := by
  unfold setSpecularLayerColorFactor; (repeat' split) <;> rfl

@[simp] theorem setSpecularLayerColorFactor_lite (s : PbrShader) (v : Color3) :
    (s.setSpecularLayerColorFactor v).lightingIsEnabled = s.lightingIsEnabled := by
  unfold setSpecularLayerColorFactor; (repeat' split) <;> rfl

@[simp] theorem setSpecularLayerColorFactor_objId (s : PbrShader) (v : Color3) :
    (s.setSpecularLayerColorFactor v).uniforms.objectId = s.uniforms.objectId := by
  unfold setSpecularLayerColorFactor; (repeat' split) <;> rfl

@[simp] theorem setPbrEquationScales_flags (s : PbrShader) (v : Vec4) :
    (s.setPbrEquationScales v).flags = s.flags := by
  unfold setPbrEquationScales; (repeat' split) <;> rfl

@[simp] theorem setPbrEquationScales_lightCount (s : PbrShader) (v : Vec4) :
    (s.setPbrEquationScales v).lightCount = s.lightCount := by
  unfold setPbrEquationScales; (repeat' split) <;> rfl

@[simp] theorem setPbrEquationScales_lite (s : PbrShader) (v : Vec4) :
    (s.setPbrEquationScales v).lightingIsEnabled = s.lightingIsEnabled := by
  unfold setPbrEquationScales; (repeat' split) <;> rfl

@[simp] theorem setPbrEquationScales_objId (s : PbrShader) (v : Vec4) :
    (s.setPbrEquationScales v).uniforms.objectId = s.uniforms.objectId := by
  unfold setPbrEquationScales; (repeat' split) <;> rfl

@[simp] theorem setDebugDisplay_flags (s : PbrShader) (v : ℕ) :
    (s.setDebugDisplay v).flags = s.flags := by
  unfold setDebugDisplay; (repeat' split) <;> rfl

@[simp] theorem setDebugDisplay_lightCount (s : PbrShader) (v : ℕ) :
    (s.setDebugDisplay v).lightCount = s.lightCount := by
  unfold setDebugDisplay; (repeat' split) <;> rfl

@[simp] theorem setDebugDisplay_lite (s : PbrShader) (v : ℕ) :
    (s.setDebugDisplay v).lightingIsEnabled = s.lightingIsEnabled := by
  unfold setDebugDisplay; (repeat' split) <;> rfl

@[simp] theorem setDebugDisplay_objId (s : PbrShader) (v : ℕ) :
    (s.setDebugDisplay v).uniforms.objectId = s.uniforms.objectId := by
  unfold setDebugDisplay; (repeat' split) <;> rfl

@[simp] theorem setCameraWorldPosition_flags (s : PbrShader) (v : Vec3) :
    (s.setCameraWorldPosition v).flags = s.flags := by
  unfold setCameraWorldPosition; (repeat' split) <;> rfl

@[simp] theorem setCameraWorldPosition_lightCount (s : PbrShader) (v : Vec3) :
    (s.setCameraWorldPosition v).lightCount = s.lightCount := by
  unfold setCameraWorldPosition; (repeat' split) <;> rfl

@[simp] theorem setCameraWorldPosition_lite (s : PbrShader) (v : Vec3) :
    (s.setCameraWorldPosition v).lightingIsEnabled = s.lightingIsEnabled := by
  unfold setCameraWorldPosition; (repeat' split) <;> rfl

@[simp] theorem setCameraWorldPosition_objId (s : PbrShader) (v : Vec3) :
    (s.setCameraWorldPosition v).uniforms.objectId = s.uniforms.objectId := by
  unfold setCameraWorldPosition; (repeat' split) <;> rfl

@[simp] theorem setTextureMatrix_flags (s : PbrShader) (v : Mat3) :
    (s.setTextureMatrix v).flags = s.flags := by
  unfold setTextureMatrix; (repeat' split) <;> rfl

@[simp] theorem setTextureMatrix_lightCount (s : PbrShader) (v : Mat3) :
    (s.setTextureMatrix v).lightCount = s.lightCount := by
  unfold setTextureMatrix; (repeat' split) <;> rfl

@[simp] theorem setTextureMatrix_lite (s : PbrShader) (v : Mat3) :
    (s.setTextureMatrix v).lightingIsEnabled = s.lightingIsEnabled := by
  unfold setTextureMatrix; (repeat' split) <;> rfl

@[simp] theorem setTextureMatrix_objId (s : PbrShader) (v : Mat3) :
    (s.setTextureMatrix v).uniforms.objectId = s.uniforms.objectId := by
  unfold setTextureMatrix; (repeat' split) <;> rfl

@[simp] theorem setLightVectors_flags (s : PbrShader) (v : List Vec4) :
    (s.setLightVectors v).flags = s.flags := by
  unfold setLightVectors; (repeat' split) <;> rfl

@[simp] theorem setLightVectors_lightCount (s : PbrShader) (v : List Vec4) :
    (s.setLightVectors v).lightCount = s.lightCount := by
  unfold setLightVectors; (repeat' split) <;> rfl

@[simp] theorem setLightVectors_lite (s : PbrShader) (v : List Vec4) :
    (s.setLightVectors v).lightingIsEnabled = s.lightingIsEnabled := by
  unfold setLightVectors; (repeat' split) <;> rfl

@[simp] theorem setLightVectors_objId (s : PbrShader) (v : List Vec4) :
    (s.setLightVectors v).uniforms.objectId = s.uniforms.objectId := by
  unfold setLightVectors; (repeat' split) <;> rfl

@[simp] theorem setLightRanges_flags (s : PbrShader) (v : List (Option ℚ)) :
    (s.setLightRanges v).flags = s.flags := by
  unfold setLightRanges; (repeat' split) <;> rfl

@[simp] theorem setLightRanges_lightCount (s : PbrShader) (v : List (Option ℚ)) :
    (s.setLightRanges v).lightCount = s.lightCount := by
  unfold setLightRanges; (repeat' split) <;> rfl

@[simp] theorem setLightRanges_lite (s : PbrShader) (v : List (Option ℚ)) :
    (s.setLightRanges v).lightingIsEnabled = s.lightingIsEnabled := by
  unfold setLightRanges; (repeat' split) <;> rfl

@[simp] theorem setLightRanges_objId (s : PbrShader) (v : List (Option ℚ)) :
    (s.setLightRanges v).uniforms.objectId = s.uniforms.objectId := by
  unfold setLightRanges; (repeat' split) <;> rfl

@[simp] theorem setNormalTextureScale_flags (s : PbrShader) (v : ℚ) :
    (s.setNormalTextureScale v).flags = s.flags := by
  unfold setNormalTextureScale; (repeat' split) <;> rfl

@[simp] theorem setNormalTextureScale_lightCount (s : PbrShader) (v : ℚ) :
    (s.setNormalTextureScale v).lightCount = s.lightCount := by
  unfold setNormalTextureScale; (repeat' split) <;> rfl

@[simp] theorem setNormalTextureScale_lite (s : PbrShader) (v : ℚ) :
    (s.setNormalTextureScale v).lightingIsEnabled = s.lightingIsEnabled := by
  unfold setNormalTextureScale; (repeat' split) <;> rfl

@[simp] theorem setNormalTextureScale_objId (s : PbrShader) (v : ℚ) :
    (s.setNormalTextureScale v).uniforms.objectId = s.uniforms.objectId := by
  unfold setNormalTextureScale; (repeat' split) <;> rfl

@[simp] theorem bindBaseColorTexture_flags (s : PbrShader) (t : Option ℕ) :
    (s.bindBaseColorTexture t).flags = s.flags := by
  unfold bindBaseColorTexture; (repeat' split) <;> rfl

@[simp] theorem bindBaseColorTexture_lightCount (s : PbrShader) (t : Option ℕ) :
    (s.bindBaseColorTexture t).lightCount = s.lightCount := by
  unfold bindBaseColorTexture; (repeat' split) <;> rfl

@[simp] theorem bindBaseColorTexture_lite (s : PbrShader) (t : Option ℕ) :
    (s.bindBaseColorTexture t).lightingIsEnabled = s.lightingIsEnabled := by
  unfold bindBaseColorTexture; (repeat' split) <;> rfl

@[simp] theorem bindBaseColorTexture_objId (s : PbrShader) (t : Option ℕ) :
    (s.bindBaseColorTexture t).uniforms.objectId = s.uniforms.objectId := by
  unfold bindBaseColorTexture; (repeat' split) <;> rfl

@[simp] theorem bindMetallicRoughnessTexture_flags (s : PbrShader) (t : Option ℕ) :
    (s.bindMetallicRoughnessTexture t).flags = s.flags := by
  unfold bindMetallicRoughnessTexture; (repeat' split) <;> rfl

@[simp] theorem bindMetallicRoughnessTexture_lightCount (s : PbrShader) (t : Option ℕ) :
    (s.bindMetallicRoughnessTexture t).lightCount = s.lightCount := by
  unfold bindMetallicRoughnessTexture; (repeat' split) <;> rfl

@[simp] theorem bindMetallicRoughnessTexture_lite (s : PbrShader) (t : Option ℕ) :
    (s.bindMetallicRoughnessTexture t).lightingIsEnabled = s.lightingIsEnabled := by
  unfold bindMetallicRoughnessTexture; (repeat' split) <;> rfl

@[simp] theorem bindMetallicRoughnessTexture_objId (s : PbrShader) (t : Option ℕ) :
    (s.bindMetallicRoughnessTexture t).uniforms.objectId = s.uniforms.objectId := by
  unfold bindMetallicRoughnessTexture; (repeat' split) <;> rfl

@[simp] theorem bindNormalTexture_flags (s : PbrShader) (t : Option ℕ) :
    (s.bindNormalTexture t).flags = s.flags := by
  unfold bindNormalTexture; (repeat' split) <;> rfl

@[simp] theorem bindNormalTexture_lightCount (s : PbrShader) (t : Option ℕ) :
    (s.bindNormalTexture t).lightCount = s.lightCount := by
  unfold bindNormalTexture; (repeat' split) <;> rfl

@[simp] theorem bindNormalTexture_lite (s : PbrShader) (t : Option ℕ) :
    (s.bindNormalTexture t).lightingIsEnabled = s.lightingIsEnabled := by
  unfold bindNormalTexture; (repeat' split) <;> rfl

@[simp] theorem bindNormalTexture_objId (s : PbrShader) (t : Option ℕ) :
    (s.bindNormalTexture t).uniforms.objectId = s.uniforms.objectId := by
  unfold bindNormalTexture; (repeat' split) <;> rfl

@[simp] theorem bindEmissiveTexture_flags (s : PbrShader) (t : Option ℕ) :
    (s.bindEmissiveTexture t).flags = s.flags := by
  unfold bindEmissiveTexture; (repeat' split) <;> rfl

@[simp] theorem bindEmissiveTexture_lightCount (s : PbrShader) (t : Option ℕ) :
    (s.bindEmissiveTexture t).lightCount = s.lightCount := by
  unfold bindEmissiveTexture; (repeat' split) <;> rfl

@[simp] theorem bindEmissiveTexture_lite (s : PbrShader) (t : Option ℕ) :
    (s.bindEmissiveTexture t).lightingIsEnabled = s.lightingIsEnabled := by
  unfold bindEmissiveTexture; (repeat' split) <;> rfl

@[simp] theorem bindEmissiveTexture_objId (s : PbrShader) (t : Option ℕ) :
    (s.bindEmissiveTexture t).uniforms.objectId = s.uniforms.objectId := by
  unfold bindEmissiveTexture; (repeat' split) <;> rfl

@[simp] theorem bindClearCoatFactorTexture_flags (s : PbrShader) (t : Option ℕ) :
    (s.bindClearCoatFactorTexture t).flags = s.flags := by
  unfold bindClearCoatFactorTexture; (repeat' split) <;> rfl

@[simp] theorem bindClearCoatFactorTexture_lightCount (s : PbrShader) (t : Option ℕ) :
    (s.bindClearCoatFactorTexture t).lightCount = s.lightCount := by
  unfold bindClearCoatFactorTexture; (repeat' split) <;> rfl

@[simp] theorem bindClearCoatFactorTexture_lite (s : PbrShader) (t : Option ℕ) :
    (s.bindClearCoatFactorTexture t).lightingIsEnabled = s.lightingIsEnabled := by
  unfold bindClearCoatFactorTexture; (repeat' split) <;> rfl

@[simp] theorem bindClearCoatFactorTexture_objId (s : PbrShader) (t : Option ℕ) :
    (s.bindClearCoatFactorTexture t).uniforms.objectId = s.uniforms.objectId := by
  unfold bindClearCoatFactorTexture; (repeat' split) <;> rfl

@[simp] theorem bindClearCoatRoughnessTexture_flags (s : PbrShader) (t : Option ℕ) :
    (s.bindClearCoatRoughnessTexture t).flags = s.flags := by
  unfold bindClearCoatRoughnessTexture; (repeat' split) <;> rfl

@[simp] theorem bindClearCoatRoughnessTexture_lightCount (s : PbrShader) (t : Option ℕ) :
    (s.bindClearCoatRoughnessTexture t).lightCount = s.lightCount := by
  unfold bindClearCoatRoughnessTexture; (repeat' split) <;> rfl

@[simp] theorem bindClearCoatRoughnessTexture_lite (s : PbrShader) (t : Option ℕ) :
    (s.bindClearCoatRoughnessTexture t).lightingIsEnabled = s.lightingIsEnabled := by
  unfold bindClearCoatRoughnessTexture; (repeat' split) <;> rfl

@[simp] theorem bindClearCoatRoughnessTexture_objId (s : PbrShader) (t : Option ℕ) :
    (s.bindClearCoatRoughnessTexture t).uniforms.objectId = s.uniforms.objectId := by
  unfold bindClearCoatRoughnessTexture; (repeat' split) <;> rfl

@[simp] theorem bindSpecularLayerTexture_flags (s : PbrShader) (t : Option ℕ) :
    (s.bindSpecularLayerTexture t).flags = s.flags := by
  unfold bindSpecularLayerTexture; (repeat' split) <;> rfl

@[simp] theorem bindSpecularLayerTexture_lightCount (s : PbrShader) (t : Option ℕ) :
    (s.bindSpecularLayerTexture t).lightCount = s.lightCount := by
  unfold bindSpecularLayerTexture; (repeat' split) <;> rfl

@[simp] theorem bindSpecularLayerTexture_lite (s : PbrShader) (t : Option ℕ) :
    (s.bindSpecularLayerTexture t).lightingIsEnabled = s.lightingIsEnabled := by
  unfold bindSpecularLayerTexture; (repeat' split) <;> rfl

@[simp] theorem bindSpecularLayerTexture_objId (s : PbrShader) (t : Option ℕ) :
    (s.bindSpecularLayerTexture t).uniforms.objectId = s.uniforms.objectId := by
  unfold bindSpecularLayerTexture; (repeat' split) <;> rfl

@[simp] theorem bindSpecularLayerColorTexture_flags (s : PbrShader) (t : Option ℕ) :
    (s.bindSpecularLayerColorTexture t).flags = s.flags := by
  unfold bindSpecularLayerColorTexture; (repeat' split) <;> rfl

@[simp] theorem bindSpecularLayerColorTexture_lightCount (s : PbrShader) (t : Option ℕ) :
    (s.bindSpecularLayerColorTexture t).lightCount = s.lightCount := by
  unfold bindSpecularLayerColorTexture; (repeat' split) <;> rfl

@[simp] theorem bindSpecularLayerColorTexture_lite (s : PbrShader) (t : Option ℕ) :
    (s.bindSpecularLayerColorTexture t).lightingIsEnabled = s.lightingIsEnabled := by
  unfold bindSpecularLayerColorTexture; (repeat' split) <;> rfl

@[simp] theorem bindSpecularLayerColorTexture_objId (s : PbrShader) (t : Option ℕ) :
    (s.bindSpecularLayerColorTexture t).uniforms.objectId = s.uniforms.objectId := by
  unfold bindSpecularLayerColorTexture; (repeat' split) <;> rfl

@[simp] theorem bindAnisotropyLayerTexture_flags (s : PbrShader) (t : Option ℕ) :
    (s.bindAnisotropyLayerTexture t).flags = s.flags := by
  unfold bindAnisotropyLayerTexture; (repeat' split) <;> rfl

@[simp] theorem bindAnisotropyLayerTexture_lightCount (s : PbrShader) (t : Option ℕ) :
    (s.bindAnisotropyLayerTexture t).lightCount = s.lightCount := by
  unfold bindAnisotropyLayerTexture; (repeat' split) <;> rfl

@[simp] theorem bindAnisotropyLayerTexture_lite (s : PbrShader) (t : Option ℕ) :
    (s.bindAnisotropyLayerTexture t).lightingIsEnabled = s.lightingIsEnabled := by
  unfold bindAnisotropyLayerTexture; (repeat' split) <;> rfl

@[simp] theorem bindAnisotropyLayerTexture_objId (s : PbrShader) (t : Option ℕ) :
    (s.bindAnisotropyLayerTexture t).uniforms.objectId = s.uniforms.objectId := by
  unfold bindAnisotropyLayerTexture; (repeat' split) <;> rfl

@[simp] theorem bindIrradianceCubeMap_flags (s : PbrShader) (t : Option ℕ) :
    (s.bindIrradianceCubeMap t).flags = s.flags := by
  unfold bindIrradianceCubeMap; (repeat' split) <;> rfl

@[simp] theorem bindIrradianceCubeMap_lightCount (s : PbrShader) (t : Option ℕ) :
    (s.bindIrradianceCubeMap t).lightCount = s.lightCount := by
  unfold bindIrradianceCubeMap; (repeat' split) <;> rfl

@[simp] theorem bindIrradianceCubeMap_lite (s : PbrShader) (t : Option ℕ) :
    (s.bindIrradianceCubeMap t).lightingIsEnabled = s.lightingIsEnabled := by
  unfold bindIrradianceCubeMap; (repeat' split) <;> rfl

@[simp] theorem bindIrradianceCubeMap_objId (s : PbrShader) (t : Option ℕ) :
    (s.bindIrradianceCubeMap t).uniforms.objectId = s.uniforms.objectId := by
  unfold bindIrradianceCubeMap; (repeat' split) <;> rfl

@[simp] theorem bindBrdfLUT_flags (s : PbrShader) (t : Option ℕ) :
    (s.bindBrdfLUT t).flags = s.flags := by
  unfold bindBrdfLUT; (repeat' split) <;> rfl

@[simp] theorem bindBrdfLUT_lightCount (s : PbrShader) (t : Option ℕ) :
    (s.bindBrdfLUT t).lightCount = s.lightCount := by
  unfold bindBrdfLUT; (repeat' split) <;> rfl

@[simp] theorem bindBrdfLUT_lite (s : PbrShader) (t : Option ℕ) :
    (s.bindBrdfLUT t).lightingIsEnabled = s.lightingIsEnabled := by
  unfold bindBrdfLUT; (repeat' split) <;> rfl

@[simp] theorem bindBrdfLUT_objId (s : PbrShader) (t : Option ℕ) :
    (s.bindBrdfLUT t).uniforms.objectId = s.uniforms.objectId := by
  unfold bindBrdfLUT; (repeat' split) <;> rfl

@[simp] theorem bindPrefilteredMap_flags (s : PbrShader) (t : Option ℕ) :
    (s.bindPrefilteredMap t).flags = s.flags := by
  unfold bindPrefilteredMap; (repeat' split) <;> rfl

@[simp] theorem bindPrefilteredMap_lightCount (s : PbrShader) (t : Option ℕ) :
    (s.bindPrefilteredMap t).lightCount = s.lightCount := by
  unfold bindPrefilteredMap; (repeat' split) <;> rfl

@[simp] theorem bindPrefilteredMap_lite (s : PbrShader) (t : Option ℕ) :
    (s.bindPrefilteredMap t).lightingIsEnabled = s.lightingIsEnabled := by
  unfold bindPrefilteredMap; (repeat' split) <;> rfl

@[simp] theorem bindPrefilteredMap_objId (s : PbrShader) (t : Option ℕ) :
    (s.bindPrefilteredMap t).uniforms.objectId = s.uniforms.objectId := by
  unfold bindPrefilteredMap; (repeat' split) <;> rfl

@[simp] theorem bindClearCoatNormalTexture_flags (s : PbrShader) (t : Option ℕ) :
    (s.bindClearCoatNormalTexture t).flags = s.flags := by
  unfold bindClearCoatNormalTexture; (repeat' split) <;> rfl

@[simp] theorem bindClearCoatNormalTexture_lightCount (s : PbrShader) (t : Option ℕ) :
    (s.bindClearCoatNormalTexture t).lightCount = s.lightCount := by
  unfold bindClearCoatNormalTexture; (repeat' split) <;> rfl

@[simp] theorem bindClearCoatNormalTexture_lite (s : PbrShader) (t : Option ℕ) :
    (s.bindClearCoatNormalTexture t).lightingIsEnabled = s.lightingIsEnabled := by
  unfold bindClearCoatNormalTexture; (repeat' split) <;> rfl

@[simp] theorem bindClearCoatNormalTexture_objId (s : PbrShader) (t : Option ℕ) :
    (s.bindClearCoatNormalTexture t).uniforms.objectId = s.uniforms.objectId := by
  unfold bindClearCoatNormalTexture; (repeat' split) <;> rfl

@[simp] theorem setLightColor_flags (s : PbrShader) (i : ℕ) (c : Color3) (q : ℚ) :
    (s.setLightColor i c q).flags = s.flags := by
  unfold setLightColor; (repeat' split) <;> rfl

@[simp] theorem setLightColor_lightCount (s : PbrShader) (i : ℕ) (c : Color3) (q : ℚ) :
    (s.setLightColor i c q).lightCount = s.lightCount := by
  unfold setLightColor; (repeat' split) <;> rfl

@[simp] theorem setLightColor_lite (s : PbrShader) (i : ℕ) (c : Color3) (q : ℚ) :
    (s.setLightColor i c q).lightingIsEnabled = s.lightingIsEnabled := by
  unfold setLightColor; (repeat' split) <;> rfl

@[simp] theorem setLightColor_objId (s : PbrShader) (i : ℕ) (c : Color3) (q : ℚ) :
    (s.setLightColor i c q).uniforms.objectId = s.uniforms.objectId := by
  unfold setLightColor; (repeat' split) <;> rfl

@[simp] theorem bindPointShadowMap_flags (s : PbrShader) (i : ℕ) (t : Option ℕ) :
    (s.bindPointShadowMap i t).flags = s.flags := by
  unfold bindPointShadowMap; (repeat' split) <;> rfl

@[simp] theorem bindPointShadowMap_lightCount (s : PbrShader) (i : ℕ) (t : Option ℕ) :
    (s.bindPointShadowMap i t).lightCount = s.lightCount := by
  unfold bindPointShadowMap; (repeat' split) <;> rfl

@[simp] theorem bindPointShadowMap_lite (s : PbrShader) (i : ℕ) (t : Option ℕ) :
    (s.bindPointShadowMap i t).lightingIsEnabled = s.lightingIsEnabled := by
  unfold bindPointShadowMap; (repeat' split) <;> rfl

@[simp] theorem bindPointShadowMap_objId (s : PbrShader) (i : ℕ) (t : Option ℕ) :
    (s.bindPointShadowMap i t).uniforms.objectId = s.uniforms.objectId := by
  unfold bindPointShadowMap; (repeat' split) <;> rfl

@[simp] theorem setColorsFrom_flags (cs : List Color3) :
    ∀ (s : PbrShader) (i : ℕ), (setColorsFrom s i cs).flags = s.flags := by
  induction cs with
  | nil => intro s i; rfl
  | cons c rest ih => intro s i; simp [setColorsFrom, ih]

@[simp] theorem setColorsFrom_lightCount (cs : List Color3) :
    ∀ (s : PbrShader) (i : ℕ), (setColorsFrom s i cs).lightCount = s.lightCount := by
  induction cs with
  | nil => intro s i; rfl
  | cons c rest ih => intro s i; simp [setColorsFrom, ih]

@[simp] theorem setColorsFrom_lite (cs : List Color3) :
    ∀ (s : PbrShader) (i : ℕ), (setColorsFrom s i cs).lightingIsEnabled = s.lightingIsEnabled := by
  induction cs with
  | nil => intro s i; rfl
  | cons c rest ih => intro s i; simp [setColorsFrom, ih]

@[simp] theorem setColorsFrom_objId (cs : List Color3) :
    ∀ (s : PbrShader) (i : ℕ), (setColorsFrom s i cs).uniforms.objectId = s.uniforms.objectId := by
  induction cs with
  | nil => intro s i; rfl
  | cons c rest ih => intro s i; simp [setColorsFrom, ih]

@[simp] theorem setLightColors_flags (s : PbrShader) (cs : List Color3) :
    (s.setLightColors cs).flags = s.flags := by
  unfold setLightColors; (repeat' split) <;> simp

@[simp] theorem setLightColors_lightCount (s : PbrShader) (cs : List Color3) :
    (s.setLightColors cs).lightCount = s.lightCount := by
  unfold setLightColors; (repeat' split) <;> simp

@[simp] theorem setLightColors_lite (s : PbrShader) (cs : List Color3) :
    (s.setLightColors cs).lightingIsEnabled = s.lightingIsEnabled := by
  unfold setLightColors; (repeat' split) <;> simp

@[simp] theorem setLightColors_objId (s : PbrShader) (cs : List Color3) :
    (s.setLightColors cs).uniforms.objectId = s.uniforms.objectId := by
  unfold setLightColors; (repeat' split) <;> simp

end PbrShader

theorem uploadCommonUniforms_flags (s : PbrShader) (d : Drawable) (cam : Camera)
    (mm : Affine4) (nm : Mat3) :
    (uploadCommonUniforms s d cam mm nm).flags = s.flags := by
  unfold uploadCommonUniforms; simp

theorem uploadCommonUniforms_objId (s : PbrShader) (d : Drawable) (cam : Camera)
    (mm : Affine4) (nm : Mat3) (h : s.flags.objectId = true) :
    (uploadCommonUniforms s d cam mm nm).uniforms.objectId
      = some (drawObjectId d cam) := by
  unfold uploadCommonUniforms
  simp [PbrShader.setObjectId, h]

theorem bindMaterialTextures_flags (s : PbrShader) (d : Drawable) :
    (bindMaterialTextures s d).flags = s.flags := by
  unfold bindMaterialTextures
  simp [apply_ite (f := PbrShader.flags)]

theorem bindMaterialTextures_objId (s : PbrShader) (d : Drawable) :
    (bindMaterialTextures s d).uniforms.objectId = s.uniforms.objectId := by
  unfold bindMaterialTextures
  simp [apply_ite (f := fun s : PbrShader => s.uniforms.objectId)]

theorem bindIblSection_flags (s : PbrShader) (r : IblResource) :
    (bindIblSection s r).flags = s.flags := by
  unfold bindIblSection; simp

theorem bindIblSection_objId (s : PbrShader) (r : IblResource) :
    (bindIblSection s r).uniforms.objectId = s.uniforms.objectId := by
  unfold bindIblSection; simp

theorem foldl_bindPointShadowMap_flags (l : List (ℕ × ℕ)) :
    ∀ s : PbrShader,
      (l.foldl (fun s e => s.bindPointShadowMap e.1 (some e.2)) s).flags = s.flags := by
  induction l with
  | nil => intro s; rfl
  | cons e rest ih => intro s; rw [List.foldl_cons, ih]; simp

theorem foldl_bindPointShadowMap_objId (l : List (ℕ × ℕ)) :
    ∀ s : PbrShader,
      (l.foldl (fun s e => s.bindPointShadowMap e.1 (some e.2)) s).uniforms.objectId
        = s.uniforms.objectId := by
  induction l with
  | nil => intro s; rfl
  | cons e rest ih => intro s; rw [List.foldl_cons, ih]; simp

theorem bindShadowMapsSection_flags (s : PbrShader) (keys : List ℕ) :
    (bindShadowMapsSection s keys).flags = s.flags :=
  foldl_bindPointShadowMap_flags keys.enum s

theorem bindShadowMapsSection_objId (s : PbrShader) (keys : List ℕ) :
    (bindShadowMapsSection s keys).uniforms.objectId = s.uniforms.objectId :=
  foldl_bindPointShadowMap_objId keys.enum s

theorem updateShaderLightParametersOn_flags (s : PbrShader) (setup : List LightInfo) :
    (updateShaderLightParametersOn s setup).flags = s.flags := by
  unfold updateShaderLightParametersOn; simp

theorem updateShaderLightParametersOn_lightCount (s : PbrShader)
    (setup : List LightInfo) :
    (updateShaderLightParametersOn s setup).lightCount = s.lightCount := by
  unfold updateShaderLightParametersOn; simp

theorem updateShaderLightParametersOn_lite (s : PbrShader) (setup : List LightInfo) :
    (updateShaderLightParametersOn s setup).lightingIsEnabled = s.lightingIsEnabled := by
  unfold updateShaderLightParametersOn; simp

theorem updateShaderLightDirectionParametersOn_flags (s : PbrShader)
    (setup : List LightInfo) (tr cm : Affine4) :
    (updateShaderLightDirectionParametersOn s setup tr cm).flags = s.flags := by
  unfold updateShaderLightDirectionParametersOn; simp

theorem updateShaderLightDirectionParametersOn_lightCount (s : PbrShader)
    (setup : List LightInfo) (tr cm : Affine4) :
    (updateShaderLightDirectionParametersOn s setup tr cm).lightCount = s.lightCount := by
  unfold updateShaderLightDirectionParametersOn; simp

theorem updateShaderLightDirectionParametersOn_lite (s : PbrShader)
    (setup : List LightInfo) (tr cm : Affine4) :
    (updateShaderLightDirectionParametersOn s setup tr cm).lightingIsEnabled
      = s.lightingIsEnabled := by
  unfold updateShaderLightDirectionParametersOn; simp

/-! Lemmas about the program constructor and the variant fetch. -/

theorem mkPbrShader_flags (f : PbrFlags) (lc : ℕ) : (mkPbrShader f lc).flags = f := by
  unfold mkPbrShader
  simp [apply_ite (f := PbrShader.flags)]

theorem mkPbrShader_lightCount (f : PbrFlags) (lc : ℕ) :
    (mkPbrShader f lc).lightCount = lc := by
  unfold mkPbrShader
  simp [apply_ite (f := PbrShader.lightCount)]

theorem mkPbrShader_lite (f : PbrFlags) (lc : ℕ) :
    (mkPbrShader f lc).lightingIsEnabled
      = (decide (lc ≠ 0) || f.imageBasedLighting) := by
  unfold mkPbrShader
  simp [apply_ite (f := PbrShader.lightingIsEnabled)]

theorem updateShader_drawable_eraseShader (d : Drawable) (mgr : ShaderManager) :
    ∃ sh, (updateShader d mgr).drawable = { d with shader := sh } := by
  unfold updateShader
  split
  · exact ⟨d.shader, rfl⟩
  · split
    · exact ⟨_, rfl⟩
    · exact ⟨_, rfl⟩

theorem updateShader_flags (d : Drawable) (mgr : ShaderManager) :
    (updateShader d mgr).drawable.flags = d.flags := by
  obtain ⟨sh, h⟩ := updateShader_drawable_eraseShader d mgr
  rw [h]

theorem updateShader_lightSetup (d : Drawable) (mgr : ShaderManager) :
    (updateShader d mgr).drawable.lightSetup = d.lightSetup := by
  obtain ⟨sh, h⟩ := updateShader_drawable_eraseShader d mgr
  rw [h]

theorem updateShader_matCache (d : Drawable) (mgr : ShaderManager) :
    (updateShader d mgr).drawable.matCache = d.matCache := by
  obtain ⟨sh, h⟩ := updateShader_drawable_eraseShader d mgr
  rw [h]

theorem updateShader_ids (d : Drawable) (mgr : ShaderManager) :
    (updateShader d mgr).drawable.drawableId = d.drawableId
      ∧ (updateShader d mgr).drawable.semanticId = d.semanticId := by
  obtain ⟨sh, h⟩ := updateShader_drawable_eraseShader d mgr
  rw [h]; exact ⟨rfl, rfl⟩

theorem updateShader_resources (d : Drawable) (mgr : ShaderManager) :
    (updateShader d mgr).drawable.pbrIbl = d.pbrIbl
      ∧ (updateShader d mgr).drawable.hasShadowManager = d.hasShadowManager
      ∧ (updateShader d mgr).drawable.shadowMapKeys = d.shadowMapKeys
      ∧ (updateShader d mgr).drawable.meshExists = d.meshExists := by
  obtain ⟨sh, h⟩ := updateShader_drawable_eraseShader d mgr
  rw [h]; exact ⟨rfl, rfl, rfl, rfl⟩

theorem shaderMatches_true {sh : Option PbrShader} {lc : ℕ} {f : PbrFlags}
    (h : shaderMatches sh lc f = true) :
    ∃ s, sh = some s ∧ s.lightCount = lc ∧ s.flags = f := by
  cases sh with
  | none => simp [shaderMatches] at h
  | some s =>
    refine ⟨s, rfl, ?_, ?_⟩ <;> simp [shaderMatches] at h <;> tauto

/-- The variant fetch, under the cache invariant: the internal assertion
holds, the held program exists and matches the request, and the invariant
is preserved. -/
theorem updateShader_ok (d : Drawable) (mgr : ShaderManager) (hwf : CacheWF mgr) :
    (updateShader d mgr).internalAssertOk = true
      ∧ (∃ s, (updateShader d mgr).drawable.shader = some s
          ∧ s.lightCount = d.lightSetup.length ∧ s.flags = d.flags)
      ∧ CacheWF (updateShader d mgr).mgr := by
  unfold updateShader
  split
  · next hmatch =>
    obtain ⟨s, hs, h1, h2⟩ := shaderMatches_true hmatch
    exact ⟨rfl, ⟨s, hs, h1, h2⟩, hwf⟩
  · next hmatch =>
    split
    · next s hget =>
      obtain ⟨h1, h2⟩ := hwf _ _ hget
      simp only [getShaderKey] at h1 h2
      have hf : s.flags = d.flags := flagsToNat_inj h2
      have hm : shaderMatches (some s) d.lightSetup.length d.flags = true := by
        simp [shaderMatches, h1, hf]
      exact ⟨hm, ⟨s, rfl, h1, hf⟩, hwf⟩
    · next hget =>
      have hm : shaderMatches (some (mkPbrShader d.flags d.lightSetup.length))
          d.lightSetup.length d.flags = true := by
        simp [shaderMatches, mkPbrShader_flags, mkPbrShader_lightCount]
      refine ⟨hm, ⟨_, rfl, mkPbrShader_lightCount _ _, mkPbrShader_flags _ _⟩, ?_⟩
      intro k s hk
      by_cases hkey : k = getShaderKey d.lightSetup.length d.flags
      · subst hkey
        simp [managerGet, managerSet] at hk
        subst hk
        refine ⟨?_, ?_⟩
        · simp [getShaderKey, mkPbrShader_lightCount]
        · simp [getShaderKey, mkPbrShader_flags]
      · have : managerGet mgr k = some s := by
          simpa [managerGet, managerSet, Ne.symm hkey, hkey] using hk
        exact hwf _ _ this
  
/-! ## Concrete fixtures used by the claim theorems -/

/-- A draw with negative rotation/scale determinant, shadows enabled and
resources attached: with more than 3 keys it exits from the shadow-count
assertion with the winding left clockwise; with at most 3 keys it draws
under the clockwise convention and restores counter-clockwise. -/
theorem draw_negdet_shadow (d : Drawable) (mgr : ShaderManager) (cam : Camera)
    (tr : Affine4) (gl : GLState) (ks : List ℕ) (hwf : CacheWF mgr)
    (hm : d.meshExists = true) (hsv : d.flags.shadowsVSM = true)
    (hibl : d.flags.imageBasedLighting = false)
    (hmgr : d.hasShadowManager = true) (hkeys : d.shadowMapKeys = some ks)
    (hdet : (Affine4.mul cam.cameraMatrixInv tr).linear.det < 0) :
    (3 < ks.length →
      (draw d mgr cam tr gl).gl.frontFace = FrontFace.clockWise
        ∧ (draw d mgr cam tr gl).abortedOn = some AssertKind.shadowCountExceeded
        ∧ (draw d mgr cam tr gl).drawIssued = false)
    ∧ (ks.length ≤ 3 →
        (draw d mgr cam tr gl).gl.frontFace = FrontFace.counterClockWise
          ∧ (draw d mgr cam tr gl).ffAtDraw = some FrontFace.clockWise
          ∧ (draw d mgr cam tr gl).drawIssued = true) := by
  obtain ⟨hok, ⟨s0, hs0, hslc, hsf⟩, hwf2⟩ := updateShader_ok d mgr hwf
  have hfl := updateShader_flags d mgr
  have hres := updateShader_resources d mgr
  simp only [draw, hm, hok, if_true, hs0]
  rw [if_pos hdet]
  simp only [drawIblSection, hfl, hibl, Bool.false_eq_true, if_false,
    drawShadowSection, hsv, if_true, hres.2.1, hmgr, hres.2.2.1, hkeys]
  constructor
  · intro h3
    rw [if_pos h3]
    exact ⟨rfl, rfl, rfl⟩
  · intro h3
    rw [if_neg (by omega)]
    unfold drawTail
    rw [if_pos hdet]
    exact ⟨rfl, rfl, rfl⟩

/-- Claim C1 (code bug): the winding convention is NOT restored on the
exit path taken when the shadow-map-count precondition fails.  At a
concrete draw whose rotation/scale determinant is -1, with the shadow
variant enabled and four configured shadow keys, the call starts from the
counter-clockwise convention, flips it to clockwise, then returns early
from the shadow-count assertion before the draw call with the winding
still clockwise: the flipped state leaks.  A draw of the same drawable
with three keys restores the winding to counter-clockwise after drawing
with the clockwise convention, showing the restoration the claim expects
on the successful path. -/
theorem claim_C1_winding_leak :
    (cameraMirror.cameraMatrixInv.mul Affine4.identity).linear.det < 0
    ∧ ({} : GLState).frontFace = FrontFace.counterClockWise
    ∧ (draw drawableShadow4 [] cameraMirror Affine4.identity {}).abortedOn
        = some AssertKind.shadowCountExceeded
    ∧ (draw drawableShadow4 [] cameraMirror Affine4.identity {}).drawIssued = false
    ∧ (draw drawableShadow4 [] cameraMirror Affine4.identity {}).gl.frontFace
        = FrontFace.clockWise
    ∧ (draw { drawableShadow4 with shadowMapKeys := some [10, 11, 12] }
        [] cameraMirror Affine4.identity {}).ffAtDraw = some FrontFace.clockWise
    ∧ (draw { drawableShadow4 with shadowMapKeys := some [10, 11, 12] }
        [] cameraMirror Affine4.identity {}).gl.frontFace
        = FrontFace.counterClockWise := by
  have hwfE : CacheWF ([] : ShaderManager) := by
    intro k s h
    simp [managerGet] at h
  have hdet : (Affine4.mul cameraMirror.cameraMatrixInv Affine4.identity).linear.det < 0 := by
    norm_num [cameraMirror, Affine4.mul, Affine4.identity, Mat3.mul, Mat3.det, Mat3.identity]
  have h4 := draw_negdet_shadow drawableShadow4 [] cameraMirror Affine4.identity {}
    [10, 11, 12, 13] hwfE rfl rfl rfl rfl rfl hdet
  have h3 := draw_negdet_shadow { drawableShadow4 with shadowMapKeys := some [10, 11, 12] }
    [] cameraMirror Affine4.identity {} [10, 11, 12] hwfE rfl rfl rfl rfl rfl hdet
  have hlen4 : 3 < ([10, 11, 12, 13] : List ℕ).length := by decide
  have hlen3 : ([10, 11, 12] : List ℕ).length ≤ 3 := by decide
  exact ⟨hdet, rfl, (h4.1 hlen4).2.1, (h4.1 hlen4).2.2, (h4.1 hlen4).1,
    (h3.2 hlen3).2.1, (h3.2 hlen3).1⟩

/-! ## Claim C2 -/

/-- Claim C2 counterexample: material-flag extraction is not total; a
well-formed material description that merely omits the per-vertex-object-id
attribute fails the asserting attribute lookup instead of falling back to a
default. -/
theorem claim_C2_counterexample :
    setMaterialValuesInternal false matNoPerVertexId
      = .error AssertKind.materialAttributeMissing := by
  rfl

/-- Claim C2 (amended): extraction completes, substituting the documented
default for every absent attribute, for every material description that
does carry the per-vertex-object-id attribute; that one attribute is
probed with the asserting accessor and is required. -/
theorem claim_C2_extraction_total (meshTan : Bool) (m : MaterialDescription)
    (b : Bool) (h : m.hasPerVertexObjectId = some b) :
    ∃ r, setMaterialValuesInternal meshTan m = .ok r := by
  unfold setMaterialValuesInternal
  simp only [h]
  exact ⟨_, rfl⟩

/-- Witness for claim C2: the amended theorem applied to a concrete
material carrying the attribute. -/
theorem claim_C2_witness :
    ∃ r, setMaterialValuesInternal false matAnisoDemo = .ok r :=
  claim_C2_extraction_total false matAnisoDemo false rfl

/-! ## Claim C4 -/

/-- Claim C4: on upload, every light vector equals the raw world-relative
vector scaled componentwise by (2*w - 1) where w is the raw fourth
component, so positional lights (w = 1) pass unchanged and directional
lights (w = 0) are sign-flipped. -/
theorem claim_C4_light_vector_packing (s : PbrShader) (setup : List LightInfo)
    (transform cameraMatrix : Affine4) (h : s.lightCount = setup.length) :
    (updateShaderLightDirectionParametersOn s setup transform cameraMatrix).uniforms.lightVectors
      = setup.map fun l =>
          Vec4.scale ((getLightPositionRelativeToWorld l transform cameraMatrix).w * 2 - 1)
            (getLightPositionRelativeToWorld l transform cameraMatrix) := by
  unfold updateShaderLightDirectionParametersOn PbrShader.setLightVectors
  simp [h]

/-- Witness for claim C4: at the concrete two-light setup the packed
vectors are (1,2,3,1) unchanged and (0,0,1,0) sign-flipped. -/
theorem claim_C4_witness :
    (updateShaderLightDirectionParametersOn (mkPbrShader {} 2) setupC4
      Affine4.identity Affine4.identity).uniforms.lightVectors
      = [⟨1, 2, 3, 1⟩, ⟨0, 0, 1, 0⟩] := by
  have h := claim_C4_light_vector_packing (mkPbrShader {} 2) setupC4
    Affine4.identity Affine4.identity
    (by rw [mkPbrShader_lightCount]; rfl)
  rw [h]
  norm_num [setupC4, getLightPositionRelativeToWorld, Vec4.scale]

/-! Frame lemmas for the light-color uniform array length, used to show
the constructor sizes the array by the light count. -/

@[simp] theorem setProjectionMatrix_lcLen (s : PbrShader) (v : ProjMat) :
    (PbrShader.setProjectionMatrix s v).uniforms.lightColors.length
      = s.uniforms.lightColors.length := by
  unfold PbrShader.setProjectionMatrix
  (repeat' split) <;> rfl

@[simp] theorem setNormalMatrix_lcLen (s : PbrShader) (v : Mat3) :
    (PbrShader.setNormalMatrix s v).uniforms.lightColors.length
      = s.uniforms.lightColors.length := by
  unfold PbrShader.setNormalMatrix
  (repeat' split) <;> rfl

@[simp] theorem setViewMatrix_lcLen (s : PbrShader) (v : Affine4) :
    (PbrShader.setViewMatrix s v).uniforms.lightColors.length
      = s.uniforms.lightColors.length := by
  unfold PbrShader.setViewMatrix
  (repeat' split) <;> rfl

@[simp] theorem setModelMatrix_lcLen (s : PbrShader) (v : Affine4) :
    (PbrShader.setModelMatrix s v).uniforms.lightColors.length
      = s.uniforms.lightColors.length := by
  unfold PbrShader.setModelMatrix
  (repeat' split) <;> rfl

@[simp] theorem setBaseColor_lcLen (s : PbrShader) (v : Color4) :
    (PbrShader.setBaseColor s v).uniforms.lightColors.length
      = s.uniforms.lightColors.length := by
  unfold PbrShader.setBaseColor
  (repeat' split) <;> rfl

@[simp] theorem setEmissiveColor_lcLen (s : PbrShader) (v : Color3) :
    (PbrShader.setEmissiveColor s v).uniforms.lightColors.length
      = s.uniforms.lightColors.length := by
  unfold PbrShader.setEmissiveColor
  (repeat' split) <;> rfl

@[simp] theorem setRoughness_lcLen (s : PbrShader) (v : ℚ) :
    (PbrShader.setRoughness s v).uniforms.lightColors.length
      = s.uniforms.lightColors.length := by
  unfold PbrShader.setRoughness
  (repeat' split) <;> rfl

@[simp] theorem setMetallic_lcLen (s : PbrShader) (v : ℚ) :
    (PbrShader.setMetallic s v).uniforms.lightColors.length
      = s.uniforms.lightColors.length := by
  unfold PbrShader.setMetallic
  (repeat' split) <;> rfl

@[simp] theorem setIndexOfRefraction_lcLen (s : PbrShader) (v : ℚ) :
    (PbrShader.setIndexOfRefraction s v).uniforms.lightColors.length
      = s.uniforms.lightColors.length := by
  unfold PbrShader.setIndexOfRefraction
  (repeat' split) <;> rfl

@[simp] theorem setClearCoatFactor_lcLen (s : PbrShader) (v : ℚ) :
    (PbrShader.setClearCoatFactor s v).uniforms.lightColors.length
      = s.uniforms.lightColors.length := by
  unfold PbrShader.setClearCoatFactor
  (repeat' split) <;> rfl

@[simp] theorem setClearCoatRoughness_lcLen (s : PbrShader) (v : ℚ) :
    (PbrShader.setClearCoatRoughness s v).uniforms.lightColors.length
      = s.uniforms.lightColors.length := by
  unfold PbrShader.setClearCoatRoughness
  (repeat' split) <;> rfl

@[simp] theorem setClearCoatNormalTextureScale_lcLen (s : PbrShader) (v : ℚ) :
    (PbrShader.setClearCoatNormalTextureScale s v).uniforms.lightColors.length
      = s.uniforms.lightColors.length := by
  unfold PbrShader.setClearCoatNormalTextureScale
  (repeat' split) <;> rfl

@[simp] theorem setSpecularLayerFactor_lcLen (s : PbrShader) (v : ℚ) :
    (PbrShader.setSpecularLayerFactor s v).uniforms.lightColors.length
      = s.uniforms.lightColors.length := by
  unfold PbrShader.setSpecularLayerFactor
  (repeat' split) <;> rfl

@[simp] theorem setAnisotropyLayerFactor_lcLen (s : PbrShader) (v : ℚ) :
    (PbrShader.setAnisotropyLayerFactor s v).uniforms.lightColors.length
      = s.uniforms.lightColors.length := by
  unfold PbrShader.setAnisotropyLayerFactor
  (repeat' split) <;> rfl

@[simp] theorem setAnisotropyLayerDirection_lcLen (s : PbrShader) (v : RotVec) :
    (PbrShader.setAnisotropyLayerDirection s v).uniforms.lightColors.length
      = s.uniforms.lightColors.length := by
  unfold PbrShader.setAnisotropyLayerDirection
  (repeat' split) <;> rfl

@[simp] theorem setSpecularLayerColorFactor_lcLen (s : PbrShader) (v : Color3) :
    (PbrShader.setSpecularLayerColorFactor s v).uniforms.lightColors.length
      = s.uniforms.lightColors.length := by
  unfold PbrShader.setSpecularLayerColorFactor
  (repeat' split) <;> rfl

@[simp] theorem setPbrEquationScales_lcLen (s : PbrShader) (v : Vec4) :
    (PbrShader.setPbrEquationScales s v).uniforms.lightColors.length
      = s.uniforms.lightColors.length := by
  unfold PbrShader.setPbrEquationScales
  (repeat' split) <;> rfl

@[simp] theorem setDebugDisplay_lcLen (s : PbrShader) (v : ℕ) :
    (PbrShader.setDebugDisplay s v).uniforms.lightColors.length
      = s.uniforms.lightColors.length := by
  unfold PbrShader.setDebugDisplay
  (repeat' split) <;> rfl

@[simp] theorem setNormalTextureScale_lcLen (s : PbrShader) (v : ℚ) :
    (PbrShader.setNormalTextureScale s v).uniforms.lightColors.length
      = s.uniforms.lightColors.length := by
  unfold PbrShader.setNormalTextureScale
  (repeat' split) <;> rfl

@[simp] theorem setLightVectors_lcLen (s : PbrShader) (v : List Vec4) :
    (PbrShader.setLightVectors s v).uniforms.lightColors.length
      = s.uniforms.lightColors.length := by
  unfold PbrShader.setLightVectors
  (repeat' split) <;> rfl

@[simp] theorem setLightRanges_lcLen (s : PbrShader) (v : List (Option ℚ)) :
    (PbrShader.setLightRanges s v).uniforms.lightColors.length
      = s.uniforms.lightColors.length := by
  unfold PbrShader.setLightRanges
  (repeat' split) <;> rfl

@[simp] theorem setLightColor_lcLen (s : PbrShader) (i : ℕ) (c : Color3) (q : ℚ) :
    (s.setLightColor i c q).uniforms.lightColors.length
      = s.uniforms.lightColors.length := by
  unfold PbrShader.setLightColor
  (repeat' split) <;> simp

@[simp] theorem setColorsFrom_lcLen (cs : List Color3) :
    ∀ (s : PbrShader) (i : ℕ),
      (PbrShader.setColorsFrom s i cs).uniforms.lightColors.length
        = s.uniforms.lightColors.length := by
  induction cs with
  | nil => intro s i; rfl
  | cons c rest ih =>
    intro s i
    simp [PbrShader.setColorsFrom, ih]

@[simp] theorem setLightColors_lcLen (s : PbrShader) (cs : List Color3) :
    (s.setLightColors cs).uniforms.lightColors.length
      = s.uniforms.lightColors.length := by
  unfold PbrShader.setLightColors
  (repeat' split) <;> simp

/-- The constructor sizes the light-color uniform array by the light
count. -/
theorem mkPbrShader_lightColors_length (f : PbrFlags) (lc : ℕ) :
    (mkPbrShader f lc).uniforms.lightColors.length = lc := by
  unfold mkPbrShader
  simp [apply_ite (f := fun s : PbrShader => s.uniforms.lightColors.length)]

/-! ## Claim C8 -/

theorem take_succ_set {α : Type} (l : List α) (i : ℕ) (x : α) (h : i < l.length) :
    (l.set i x).take (i + 1) = l.take i ++ [x] := by
  induction l generalizing i with
  | nil => simp at h
  | cons a t ih =>
    cases i with
    | zero => simp
    | succ n =>
      simp only [List.set, List.take, List.cons_append, List.cons.injEq, true_and]
      exact ih n (by simpa using h)

/-- Scaling a color by the neutral intensity 1 leaves it unchanged. -/
theorem smul_one_color (c : Color3) : Color3.smul 1 c = c := by
  cases c
  simp [Color3.smul]

theorem setColorsFrom_lightColors (cs : List Color3) :
    ∀ (s : PbrShader) (i : ℕ),
      s.uniforms.lightColors.length = s.lightCount →
      i + cs.length = s.lightCount →
      (PbrShader.setColorsFrom s i cs).uniforms.lightColors
        = s.uniforms.lightColors.take i ++ cs.map (Color3.smul 1) := by
  induction cs with
  | nil =>
    intro s i hlen hcount
    simp only [PbrShader.setColorsFrom, List.map_nil, List.append_nil]
    simp only [List.length_nil] at hcount
    rw [List.take_of_length_le (by omega)]
  | cons c rest ih =>
    intro s i hlen hcount
    simp only [PbrShader.setColorsFrom]
    have hi : i < s.lightCount := by
      simp at hcount
      omega
    rw [PbrShader.setLightColor, if_pos hi]
    rw [ih _ (i + 1) (by simpa using hlen) (by simp at hcount ⊢; omega)]
    simp only [List.map_cons]
    rw [take_succ_set _ _ _ (by omega)]
    simp

/-- The batch color upload: for a program whose light-color array is sized
by its light count and whose light count matches the setup size, the
uploaded colors are exactly the record colors, each scaled by the
defaulted neutral intensity 1. -/
theorem updateShaderLightParametersOn_colors (s : PbrShader)
    (setup : List LightInfo)
    (hlen : s.uniforms.lightColors.length = s.lightCount)
    (hcount : s.lightCount = setup.length) :
    (updateShaderLightParametersOn s setup).uniforms.lightColors
      = setup.map fun l => l.color := by
  unfold updateShaderLightParametersOn PbrShader.setLightColors
  rw [if_pos (by simp [List.length_map, hcount])]
  rw [setColorsFrom_lightColors _ _ _ hlen (by simp [List.length_map, hcount])]
  simp [smul_one_color]

/-- Claim C8 counterexample: the color uploaded for a light record with
color (1,0,0) and intensity 2 is (1,0,0), not the intensity-scaled
(2,0,0): updateShaderLightParameters gathers the record color unscaled and
the batch upload path passes the defaulted neutral intensity to
setLightColor, so the record intensity is never consulted. -/
theorem claim_C8_counterexample :
    (updateShaderLightParametersOn (mkPbrShader {} 1) setupC8).uniforms.lightColors
        = [⟨1, 0, 0⟩]
    ∧ (setupC8.map fun l => Color3.smul l.intensity l.color) = [⟨2, 0, 0⟩]
    ∧ (updateShaderLightParametersOn (mkPbrShader {} 1) setupC8).uniforms.lightColors
        ≠ (setupC8.map fun l => Color3.smul l.intensity l.color) := by
  have h1 : (updateShaderLightParametersOn (mkPbrShader {} 1) setupC8).uniforms.lightColors
      = [⟨1, 0, 0⟩] := by
    rw [updateShaderLightParametersOn_colors (mkPbrShader {} 1) setupC8
      (by rw [mkPbrShader_lightColors_length, mkPbrShader_lightCount])
      (by rw [mkPbrShader_lightCount]; rfl)]
    rfl
  have h2 : (setupC8.map fun l => Color3.smul l.intensity l.color) = [⟨2, 0, 0⟩] := by
    norm_num [setupC8, Color3.smul]
  refine ⟨h1, h2, ?_⟩
  rw [h1, h2]
  intro h
  have := List.head_eq_of_cons_eq h
  rw [Color3.mk.injEq] at this
  norm_num at this

/-- Claim C8 (amended): for a program whose light-color uniform array is
sized by its light count (as the constructor guarantees) and whose light
count matches the setup size, the color uploaded for every light is the
record color scaled by the defaulted neutral intensity 1, i.e. the record
color unchanged; the record intensity field is never consulted on this
path, so any intensity pre-multiplication must already be baked into the
record color upstream. -/
theorem claim_C8_colors_uploaded_unscaled (s : PbrShader) (setup : List LightInfo)
    (hlen : s.uniforms.lightColors.length = s.lightCount)
    (hcount : s.lightCount = setup.length) :
    (updateShaderLightParametersOn s setup).uniforms.lightColors
      = setup.map fun l => l.color :=
  updateShaderLightParametersOn_colors s setup hlen hcount

/-- Witness for claim C8: the amended theorem applied to the concrete
intensity-2 setup; the uploaded color is the record color. -/
theorem claim_C8_witness :
    (updateShaderLightParametersOn (mkPbrShader {} 1) setupC8).uniforms.lightColors
      = setupC8.map fun l => l.color :=
  claim_C8_colors_uploaded_unscaled (mkPbrShader {} 1) setupC8
    (by rw [mkPbrShader_lightColors_length, mkPbrShader_lightCount])
    (by rw [mkPbrShader_lightCount]; rfl)

/-! ## Claim C9 -/

theorem bindShadowMapsSection_binding (s : PbrShader) (keys : List ℕ)
    (hlen : keys.length ≤ 3) (hflag : s.flags.shadowsVSM = true) :
    ∀ i : Fin keys.length,
      (bindShadowMapsSection s keys).shadowBinding i = some (keys.get i) := by
  match keys with
  | [] => exact fun i => absurd i.2 (by simp)
  | [a] =>
    intro i
    fin_cases i
    simp [bindShadowMapsSection, List.enum, PbrShader.bindPointShadowMap,
      hflag, PbrShader.shadowBinding]
  | [a, b] =>
    intro i
    fin_cases i <;>
    simp [bindShadowMapsSection, List.enum, PbrShader.bindPointShadowMap,
      hflag, PbrShader.shadowBinding]
  | [a, b, c] =>
    intro i
    fin_cases i <;>
    simp [bindShadowMapsSection, List.enum, PbrShader.bindPointShadowMap,
      hflag, PbrShader.shadowBinding]
  | a :: b :: c :: d :: t => simp at hlen

/-- Claim C9 counterexample: attaching four shadow-map keys through
setShadowData succeeds: no assertion fires, the flag is set and all four
keys are stored.  The count precondition is not checked at attach time. -/
theorem claim_C9_counterexample :
    (setShadowData drawablePlain [10, 11, 12, 13] .shadowsVSM).2 = none
    ∧ (setShadowData drawablePlain [10, 11, 12, 13] .shadowsVSM).1.flags.shadowsVSM = true
    ∧ (setShadowData drawablePlain [10, 11, 12, 13] .shadowsVSM).1.shadowMapKeys
        = some [10, 11, 12, 13] := by
  refine ⟨rfl, rfl, rfl⟩

/-- Claim C9 (amended): setShadowData accepts any number of keys (its only
precondition is the recognized shadow flag value); the count check lives in
draw(): with shadows enabled and more than 3 configured sources the draw
aborts on the shadow-count diagnostic before the draw call is issued, and
with at most 3 sources the draw completes, binding each shadow cube map on
its index. -/
theorem claim_C9_shadow_count :
    (∀ (d : Drawable) (keys : List ℕ),
      setShadowData d keys .shadowsVSM
        = ({ d with
              hasShadowManager := true
              shadowMapKeys := some keys
              flags := orFlag d.flags .shadowsVSM }, none))
    ∧ (∀ (d : Drawable) (keys : List ℕ) (fl : FlagConst),
        fl ≠ FlagConst.shadowsVSM →
        setShadowData d keys fl = (d, some AssertKind.shadowFlagInvalid))
    ∧ (∀ (d : Drawable) (mgr : ShaderManager) (cam : Camera) (tr : Affine4)
        (gl : GLState) (ks : List ℕ), CacheWF mgr →
        d.meshExists = true → d.flags.shadowsVSM = true →
        d.flags.imageBasedLighting = false → d.hasShadowManager = true →
        d.shadowMapKeys = some ks →
        (3 < ks.length →
          (draw d mgr cam tr gl).abortedOn = some AssertKind.shadowCountExceeded
            ∧ (draw d mgr cam tr gl).drawIssued = false)
          ∧ (ks.length ≤ 3 →
              (draw d mgr cam tr gl).drawIssued = true
                ∧ ∃ s, (draw d mgr cam tr gl).drawable.shader = some s
                    ∧ ∀ i : Fin ks.length, s.shadowBinding i = some (ks.get i))) := by
  refine ⟨fun d keys => by simp [setShadowData],
    fun d keys fl hfl => by simp [setShadowData, hfl], ?_⟩
  intro d mgr cam tr gl ks hwf hm hsv hibl hmgr hkeys
  obtain ⟨hok, ⟨s0, hs0, hslc, hsf⟩, hwf2⟩ := updateShader_ok d mgr hwf
  have hfl := updateShader_flags d mgr
  have hres := updateShader_resources d mgr
  simp only [draw, hm, hok, if_true, hs0]
  simp only [drawIblSection, hfl, hibl, Bool.false_eq_true, if_false,
    drawShadowSection, hsv, if_true, hres.2.1, hmgr, hres.2.2.1, hkeys]
  constructor
  · intro h3
    rw [if_pos h3]
    exact ⟨rfl, rfl⟩
  · intro h3
    rw [if_neg (by omega)]
    unfold drawTail
    refine ⟨rfl, ⟨_, rfl, ?_⟩⟩
    apply bindShadowMapsSection_binding _ _ h3
    rw [bindMaterialTextures_flags, uploadCommonUniforms_flags,
      updateShaderLightDirectionParametersOn_flags, updateShaderLightParametersOn_flags,
      hsf, hsv]

/-- Witness for claim C9: at the concrete four-key drawable the draw
aborts on the shadow-count diagnostic without issuing the draw call. -/
theorem claim_C9_witness :
    (draw drawableShadow4 [] cameraMirror Affine4.identity {}).abortedOn
        = some AssertKind.shadowCountExceeded
    ∧ (draw drawableShadow4 [] cameraMirror Affine4.identity {}).drawIssued = false :=
  (claim_C9_shadow_count.2.2 drawableShadow4 [] cameraMirror Affine4.identity {}
    [10, 11, 12, 13] (by intro k s h; simp [managerGet] at h)
    rfl rfl rfl rfl rfl).1 (by decide)

/-! ## Claim C10 -/

/-- Claim C10: for a program variant constructed with light count 0 and
the image-based-lighting flag unset, lighting is disabled, and every lit
material setter and every lit texture bind returns with the program state
entirely unchanged, even when the corresponding feature flag is set so the
precondition assertions pass. -/
theorem claim_C10_unlit_setters_noop (flags : PbrFlags)
    (hIbl : flags.imageBasedLighting = false)
    (hbc : flags.baseColorTexture = true)
    (hmr : flags.noneRoughnessMetallicTexture = true)
    (hn : flags.normalTexture = true)
    (hcc : flags.clearCoatLayer = true)
    (hcct : flags.clearCoatTexture = true)
    (hccrt : flags.clearCoatRoughnessTexture = true)
    (hccnt : flags.clearCoatNormalTexture = true)
    (hsp : flags.specularLayer = true)
    (hspt : flags.specularLayerTexture = true)
    (hspct : flags.specularLayerColorTexture = true)
    (han : flags.anisotropyLayer = true)
    (hant : flags.anisotropyLayerTexture = true) :
    (mkPbrShader flags 0).lightingIsEnabled = false
    ∧ (∀ c : Color4, PbrShader.setBaseColor (mkPbrShader flags 0) c = mkPbrShader flags 0)
    ∧ (∀ v : ℚ, PbrShader.setRoughness (mkPbrShader flags 0) v = mkPbrShader flags 0)
    ∧ (∀ v : ℚ, PbrShader.setMetallic (mkPbrShader flags 0) v = mkPbrShader flags 0)
    ∧ (∀ v : ℚ, PbrShader.setIndexOfRefraction (mkPbrShader flags 0) v = mkPbrShader flags 0)
    ∧ (∀ v : ℚ, PbrShader.setNormalTextureScale (mkPbrShader flags 0) v = mkPbrShader flags 0)
    ∧ (∀ v : ℚ, PbrShader.setClearCoatFactor (mkPbrShader flags 0) v = mkPbrShader flags 0)
    ∧ (∀ v : ℚ, PbrShader.setClearCoatRoughness (mkPbrShader flags 0) v = mkPbrShader flags 0)
    ∧ (∀ v : ℚ, PbrShader.setClearCoatNormalTextureScale (mkPbrShader flags 0) v = mkPbrShader flags 0)
    ∧ (∀ v : ℚ, PbrShader.setSpecularLayerFactor (mkPbrShader flags 0) v = mkPbrShader flags 0)
    ∧ (∀ c : Color3, PbrShader.setSpecularLayerColorFactor (mkPbrShader flags 0) c = mkPbrShader flags 0)
    ∧ (∀ v : ℚ, PbrShader.setAnisotropyLayerFactor (mkPbrShader flags 0) v = mkPbrShader flags 0)
    ∧ (∀ v : RotVec, PbrShader.setAnisotropyLayerDirection (mkPbrShader flags 0) v = mkPbrShader flags 0)
    ∧ (∀ t : Option ℕ, PbrShader.bindBaseColorTexture (mkPbrShader flags 0) t = mkPbrShader flags 0)
    ∧ (∀ t : Option ℕ, PbrShader.bindMetallicRoughnessTexture (mkPbrShader flags 0) t = mkPbrShader flags 0)
    ∧ (∀ t : Option ℕ, PbrShader.bindNormalTexture (mkPbrShader flags 0) t = mkPbrShader flags 0)
    ∧ (∀ t : Option ℕ, PbrShader.bindClearCoatFactorTexture (mkPbrShader flags 0) t = mkPbrShader flags 0)
    ∧ (∀ t : Option ℕ, PbrShader.bindClearCoatRoughnessTexture (mkPbrShader flags 0) t = mkPbrShader flags 0)
    ∧ (∀ t : Option ℕ, PbrShader.bindClearCoatNormalTexture (mkPbrShader flags 0) t = mkPbrShader flags 0)
    ∧ (∀ t : Option ℕ, PbrShader.bindSpecularLayerTexture (mkPbrShader flags 0) t = mkPbrShader flags 0)
    ∧ (∀ t : Option ℕ, PbrShader.bindSpecularLayerColorTexture (mkPbrShader flags 0) t = mkPbrShader flags 0)
    ∧ (∀ t : Option ℕ, PbrShader.bindAnisotropyLayerTexture (mkPbrShader flags 0) t = mkPbrShader flags 0) := by
  have hlite : (mkPbrShader flags 0).lightingIsEnabled = false := by
    rw [mkPbrShader_lite]
    simp [hIbl]
  exact ⟨hlite,
    fun c => by simp [PbrShader.setBaseColor, hlite],
    fun v => by simp [PbrShader.setRoughness, hlite],
    fun v => by simp [PbrShader.setMetallic, hlite],
    fun v => by simp [PbrShader.setIndexOfRefraction, hlite],
    fun v => by simp [PbrShader.setNormalTextureScale, hlite],
    fun v => by simp [PbrShader.setClearCoatFactor, hlite],
    fun v => by simp [PbrShader.setClearCoatRoughness, hlite],
    fun v => by simp [PbrShader.setClearCoatNormalTextureScale, hlite],
    fun v => by simp [PbrShader.setSpecularLayerFactor, hlite],
    fun c => by simp [PbrShader.setSpecularLayerColorFactor, hlite],
    fun v => by simp [PbrShader.setAnisotropyLayerFactor, hlite],
    fun v => by simp [PbrShader.setAnisotropyLayerDirection, hlite],
    fun t => by simp [PbrShader.bindBaseColorTexture, hlite],
    fun t => by simp [PbrShader.bindMetallicRoughnessTexture, hlite],
    fun t => by simp [PbrShader.bindNormalTexture, hlite],
    fun t => by simp [PbrShader.bindClearCoatFactorTexture, hlite],
    fun t => by simp [PbrShader.bindClearCoatRoughnessTexture, hlite],
    fun t => by simp [PbrShader.bindClearCoatNormalTexture, hlite],
    fun t => by simp [PbrShader.bindSpecularLayerTexture, hlite],
    fun t => by simp [PbrShader.bindSpecularLayerColorTexture, hlite],
    fun t => by simp [PbrShader.bindAnisotropyLayerTexture, hlite]⟩

/-- Witness for claim C10: at the all-features flag set with zero lights,
lighting is disabled and a representative setter and bind leave the
program unchanged. -/
theorem claim_C10_witness :
    (mkPbrShader flagsC10 0).lightingIsEnabled = false
    ∧ PbrShader.setBaseColor (mkPbrShader flagsC10 0) ⟨1, 0, 0, 1⟩ = mkPbrShader flagsC10 0
    ∧ PbrShader.bindAnisotropyLayerTexture (mkPbrShader flagsC10 0) (some 7)
        = mkPbrShader flagsC10 0 :=
  have h := claim_C10_unlit_setters_noop flagsC10 rfl rfl rfl rfl rfl rfl rfl rfl
    rfl rfl rfl rfl rfl
  ⟨h.1, h.2.1 ⟨1, 0, 0, 1⟩, h.2.2.2.2.2.2.2.2.2.2.2.2.2.2.2.2.2.2.2.2.2 (some 7)⟩

/-! ## Claim C6 -/

/-- Claim C6: the variant key is a deterministic, injective function of
(lightCount, flags); under the cache invariant, updateShader's internal
assertion holds, the held variant afterwards has exactly the requested
light count and flags, the invariant is preserved, and an immediately
repeated request reuses the held variant and leaves the drawable and the
cache unchanged - equal keys yield the same underlying variant. -/
theorem claim_C6_shader_key_cache (lc1 lc2 : ℕ) (f1 f2 : PbrFlags)
    (d : Drawable) (mgr : ShaderManager) (hwf : CacheWF mgr) :
    (getShaderKey lc1 f1 = getShaderKey lc2 f2 ↔ lc1 = lc2 ∧ f1 = f2)
    ∧ (updateShader d mgr).internalAssertOk = true
    ∧ (∃ s, (updateShader d mgr).drawable.shader = some s
        ∧ s.lightCount = d.lightSetup.length ∧ s.flags = d.flags)
    ∧ CacheWF (updateShader d mgr).mgr
    ∧ updateShader (updateShader d mgr).drawable (updateShader d mgr).mgr
        = ⟨(updateShader d mgr).drawable, (updateShader d mgr).mgr, true⟩ := by
  obtain ⟨hok, ⟨s, hs, hlc, hf⟩, hwf2⟩ := updateShader_ok d mgr hwf
  refine ⟨?_, hok, ⟨s, hs, hlc, hf⟩, hwf2, ?_⟩
  · constructor
    · intro h
      have h1 : lc1 = lc2 := congrArg Prod.fst h
      have h2 := congrArg Prod.snd h
      simp only [getShaderKey] at h2
      exact ⟨h1, flagsToNat_inj h2⟩
    · rintro ⟨rfl, rfl⟩
      rfl
  · have hmatch : shaderMatches (updateShader d mgr).drawable.shader
        ((updateShader d mgr).drawable.lightSetup.length)
        (updateShader d mgr).drawable.flags = true := by
      rw [hs, updateShader_lightSetup, updateShader_flags]
      simp [shaderMatches, hlc, hf]
    conv_lhs => rw [updateShader]
    rw [if_pos hmatch]

/-- Witness for claim C6: the theorem applied at a concrete drawable and
the empty (trivially well-formed) cache. -/
theorem claim_C6_witness :
    (getShaderKey 2 flagsC10 = getShaderKey 2 flagsC10 ↔ 2 = 2 ∧ flagsC10 = flagsC10)
    ∧ (updateShader drawablePlain []).internalAssertOk = true
    ∧ updateShader (updateShader drawablePlain []).drawable (updateShader drawablePlain []).mgr
        = ⟨(updateShader drawablePlain []).drawable, (updateShader drawablePlain []).mgr, true⟩ :=
  have h := claim_C6_shader_key_cache 2 2 flagsC10 flagsC10 drawablePlain []
    (by intro k s h; simp [managerGet] at h)
  ⟨h.1, h.2.1, h.2.2.2.2⟩

/-! ## Claim C7 -/

theorem drawIblSection_shader_objId (d1 : Drawable) (mgr1 : ShaderManager)
    (gl1 : GLState) (det : ℚ) (s : PbrShader) :
    ∃ s', (drawIblSection d1 mgr1 gl1 det s).drawable.shader = some s'
      ∧ s'.uniforms.objectId = s.uniforms.objectId := by
  unfold drawIblSection drawShadowSection drawTail
  repeat' split
  all_goals exact ⟨_, rfl, by simp [bindIblSection_objId, bindShadowMapsSection_objId]⟩

theorem drawIblSection_objId_val (d1 : Drawable) (mgr1 : ShaderManager)
    (gl1 : GLState) (det : ℚ) (s : PbrShader) (v : ℕ)
    (h : s.uniforms.objectId = some v) :
    ∃ s', (drawIblSection d1 mgr1 gl1 det s).drawable.shader = some s'
      ∧ s'.uniforms.objectId = some v := by
  obtain ⟨s', hsh, hid⟩ := drawIblSection_shader_objId d1 mgr1 gl1 det s
  exact ⟨s', hsh, by rw [hid, h]⟩

/-- Claim C7: on every draw from a well-formed cache, the object id
uploaded to the program is the drawable-specific id when the render camera
uses drawable ids, else 0 exactly when the per-vertex instanced-object-id
flag is set, else the scene-node semantic id - for every combination of
the remaining capability flags (every extracted flag set carries the
ObjectId bit, making the compound superset test equivalent to the
instanced bit alone). -/
theorem claim_C7_object_id (d : Drawable) (mgr : ShaderManager) (cam : Camera)
    (tr : Affine4) (gl : GLState) (hwf : CacheWF mgr)
    (hm : d.meshExists = true) (hobj : d.flags.objectId = true) :
    ∃ s, (draw d mgr cam tr gl).drawable.shader = some s
      ∧ s.uniforms.objectId
          = some (if cam.useDrawableIds then d.drawableId
              else if d.flags.instancedObjectId = true then 0 else d.semanticId) := by
  obtain ⟨hok, ⟨s0, hs0, hslc, hsf⟩, hwf2⟩ := updateShader_ok d mgr hwf
  simp only [draw, hm, hok, if_true, hs0]
  apply drawIblSection_objId_val
  have hflag : (updateShaderLightDirectionParametersOn
      (updateShaderLightParametersOn s0 (updateShader d mgr).drawable.lightSetup)
      (updateShader d mgr).drawable.lightSetup tr cam.cameraMatrix).flags.objectId = true := by
    rw [updateShaderLightDirectionParametersOn_flags, updateShaderLightParametersOn_flags,
      hsf, hobj]
  rw [bindMaterialTextures_objId, uploadCommonUniforms_objId _ _ _ _ _ hflag]
  congr 1
  unfold drawObjectId containsFlag
  rw [updateShader_flags, (updateShader_ids d mgr).1, (updateShader_ids d mgr).2]
  simp [hobj]

/-- Witness for claim C7: at a concrete drawable under a camera not using
drawable ids and without the instanced flag, the uploaded object id is the
scene-node semantic id. -/
theorem claim_C7_witness :
    ∃ s, (draw drawablePlain [] {} Affine4.identity {}).drawable.shader = some s
      ∧ s.uniforms.objectId
          = some (if ({} : Camera).useDrawableIds then drawablePlain.drawableId
              else if drawablePlain.flags.instancedObjectId = true then 0
              else drawablePlain.semanticId) :=
  claim_C7_object_id drawablePlain [] {} Affine4.identity {}
    (by intro k s h; simp [managerGet] at h) rfl rfl

/-! ## Claim C5 -/

/-- Claim C5: after material extraction, a drawable's capability flags are
stable: the program refresh, a light-setup change and every draw (on all
its exit paths) leave the flags bit-for-bit unchanged; setShadowData with
the recognized flag ORs in exactly the shadow bit, leaving every other bit
unchanged, and with any other flag argument fails its precondition and
changes nothing; at construction the flags are the freshly extracted ones
with exactly the IBL bit ORed in when an IBL resource is supplied. -/
theorem claim_C5_flag_stability :
    (∀ (d : Drawable) (mgr : ShaderManager),
      (updateShader d mgr).drawable.flags = d.flags)
    ∧ (∀ (d : Drawable) (setup : List LightInfo),
        (setLightSetup d setup).flags = d.flags)
    ∧ (∀ (d : Drawable) (mgr : ShaderManager) (cam : Camera) (tr : Affine4)
        (gl : GLState), (draw d mgr cam tr gl).drawable.flags = d.flags)
    ∧ (∀ (d : Drawable) (keys : List ℕ),
        (setShadowData d keys .shadowsVSM).1.flags
          = { d.flags with shadowsVSM := true })
    ∧ (∀ (d : Drawable) (keys : List ℕ) (fl : FlagConst),
        fl ≠ FlagConst.shadowsVSM → (setShadowData d keys fl).1 = d)
    ∧ (∀ (mex mtan : Bool) (ls : List LightInfo) (m : MaterialDescription)
        (ids sem : ℕ) (ibl : Option IblResource) (d : Drawable)
        (fl : PbrFlags) (c : PbrMaterialCache),
        setMaterialValuesInternal mtan m = .ok (fl, c) →
        mkPbrDrawable mex mtan ls m ids sem ibl = .ok d →
        d.flags = (if ibl.isSome then { fl with imageBasedLighting := true } else fl)) := by
  refine ⟨updateShader_flags, fun d setup => rfl, ?_, ?_, ?_, ?_⟩
  · intro d mgr cam tr gl
    simp only [draw, drawIblSection, drawShadowSection, drawTail]
    repeat' split
    all_goals simp [updateShader_flags]
  · intro d keys
    simp [setShadowData, orFlag]
  · intro d keys fl hfl
    simp [setShadowData, hfl]
  · intro mex mtan ls m ids sem ibl d fl c hex hmk
    unfold mkPbrDrawable at hmk
    rw [hex] at hmk
    simp only [Except.ok.injEq] at hmk
    subst hmk
    split <;> simp [orFlag]

/-- Witness for claim C5: setShadowData with a non-shadow flag argument
changes nothing, and a concrete draw leaves the flags unchanged. -/
theorem claim_C5_witness :
    (setShadowData drawablePlain [0] .imageBasedLighting).1 = drawablePlain
    ∧ (draw drawablePlain [] {} Affine4.identity {}).drawable.flags
        = drawablePlain.flags :=
  ⟨claim_C5_flag_stability.2.2.2.2.1 drawablePlain [0] .imageBasedLighting (by decide),
   claim_C5_flag_stability.2.2.1 drawablePlain [] {} Affine4.identity {}⟩

/-! ## Claim C3 -/

theorem anisoStrengthStep_spec (a : AnisotropyLayerDesc) (s : ExtractState)
    (hf : s.1.anisotropyLayer = false) (hc : s.2.anisotropyLayer = {}) :
    (anisoStrengthStep a s).1.anisotropyLayer
        = decide (resolvedAnisotropyStrength a ≠ 0)
    ∧ (anisoStrengthStep a s).2.anisotropyLayer.factor
        = clampQ (resolvedAnisotropyStrength a) (-1) 1
    ∧ (anisoStrengthStep a s).2.anisotropyLayer.direction = ⟨0⟩ := by
  have hcl : clampQ 0 (-1) 1 = 0 := by
    simp [clampQ]
  unfold anisoStrengthStep resolvedAnisotropyStrength
  rcases a with ⟨as, aa, ar, ad, atex⟩
  dsimp only
  cases as with
  | some v =>
    by_cases hv : |v| > 0
    · have hvne : v ≠ 0 := abs_pos.mp hv
      simp [hv, orFlag, hc, hvne]
    · have hv0 : v = 0 := by simpa [abs_pos] using hv
      subst hv0
      simp [hf, hc, hcl]
  | none =>
    cases aa with
    | some v =>
      by_cases hv : |v| > 0
      · have hvne : v ≠ 0 := abs_pos.mp hv
        simp [hv, orFlag, hc, hvne]
      · have hv0 : v = 0 := by simpa [abs_pos] using hv
        subst hv0
        simp [hf, hc, hcl]
    | none => simp [hf, hc, hcl]

theorem anisoRotationStep_spec (a : AnisotropyLayerDesc) (s : ExtractState)
    (hdir : s.2.anisotropyLayer.direction = ⟨0⟩) :
    (anisoRotationStep a s).1.anisotropyLayer
        = (s.1.anisotropyLayer || decide (resolvedAnisotropyRotation a ≠ 0))
    ∧ (anisoRotationStep a s).2.anisotropyLayer.direction
        = ⟨resolvedAnisotropyRotation a⟩
    ∧ (anisoRotationStep a s).2.anisotropyLayer.factor
        = s.2.anisotropyLayer.factor := by
  unfold anisoRotationStep resolvedAnisotropyRotation
  rcases a with ⟨as, aa, ar, ad, atex⟩
  dsimp only
  cases ar with
  | some v =>
    by_cases hv : v = 0
    · subst hv
      simp [hdir]
    · simp [hv, orFlag]
  | none =>
    cases ad with
    | some v =>
      by_cases hv : v = 0
      · subst hv
        simp [hdir]
      · simp [hv, orFlag]
    | none => simp [hdir]

theorem anisoTextureStep_spec (a : AnisotropyLayerDesc) (s : ExtractState) :
    (anisoTextureStep a s).1.anisotropyLayer
        = (s.1.anisotropyLayer || a.anisotropyTexture.isSome)
    ∧ (anisoTextureStep a s).2.anisotropyLayer.factor = s.2.anisotropyLayer.factor
    ∧ (anisoTextureStep a s).2.anisotropyLayer.direction
        = s.2.anisotropyLayer.direction := by
  unfold anisoTextureStep
  cases h : a.anisotropyTexture with
  | some t => simp [orFlag]
  | none => simp

theorem extractBase_aniso (mt : Bool) (m : MaterialDescription) (s : ExtractState) :
    (extractBase mt m s).1.anisotropyLayer = s.1.anisotropyLayer
    ∧ (extractBase mt m s).2.anisotropyLayer = s.2.anisotropyLayer := by
  simp only [extractBase]
  repeat' split
  all_goals simp [orFlag]

theorem extractClearCoat_aniso (m : MaterialDescription) (s : ExtractState) :
    (extractClearCoat m s).1.anisotropyLayer = s.1.anisotropyLayer
    ∧ (extractClearCoat m s).2.anisotropyLayer = s.2.anisotropyLayer := by
  simp only [extractClearCoat]
  repeat' split
  all_goals simp [orFlag]

theorem extractIor_aniso (m : MaterialDescription) (s : ExtractState) :
    (extractIor m s).1.anisotropyLayer = s.1.anisotropyLayer
    ∧ (extractIor m s).2.anisotropyLayer = s.2.anisotropyLayer := by
  simp only [extractIor]
  repeat' split
  all_goals simp [orFlag]

theorem extractSpecular_aniso (m : MaterialDescription) (s : ExtractState) :
    (extractSpecular m s).1.anisotropyLayer = s.1.anisotropyLayer
    ∧ (extractSpecular m s).2.anisotropyLayer = s.2.anisotropyLayer := by
  simp only [extractSpecular]
  repeat' split
  all_goals simp [orFlag]

theorem extractTransmission_aniso (m : MaterialDescription) (s : ExtractState) :
    (extractTransmission m s).1.anisotropyLayer = s.1.anisotropyLayer
    ∧ (extractTransmission m s).2.anisotropyLayer = s.2.anisotropyLayer := by
  simp only [extractTransmission]
  repeat' split
  all_goals simp [orFlag]

theorem extractVolume_aniso (m : MaterialDescription) (s : ExtractState) :
    (extractVolume m s).1.anisotropyLayer = s.1.anisotropyLayer
    ∧ (extractVolume m s).2.anisotropyLayer = s.2.anisotropyLayer := by
  simp only [extractVolume]
  repeat' split
  all_goals simp [orFlag]

theorem extractAnisotropy_spec (m : MaterialDescription) (a : AnisotropyLayerDesc)
    (ha : m.anisotropyLayer = some a) (s : ExtractState)
    (hf : s.1.anisotropyLayer = false) (hc : s.2.anisotropyLayer = {}) :
    (extractAnisotropy m s).1.anisotropyLayer
        = (decide (resolvedAnisotropyStrength a ≠ 0)
            || decide (resolvedAnisotropyRotation a ≠ 0)
            || a.anisotropyTexture.isSome)
    ∧ (extractAnisotropy m s).2.anisotropyLayer.factor
        = clampQ (resolvedAnisotropyStrength a) (-1) 1
    ∧ (extractAnisotropy m s).2.anisotropyLayer.direction
        = ⟨resolvedAnisotropyRotation a⟩ := by
  unfold extractAnisotropy
  rw [ha]
  obtain ⟨h1f, h1fac, h1dir⟩ := anisoStrengthStep_spec a s hf hc
  obtain ⟨h2f, h2dir, h2fac⟩ := anisoRotationStep_spec a (anisoStrengthStep a s) h1dir
  obtain ⟨h3f, h3fac, h3dir⟩ := anisoTextureStep_spec a
    (anisoRotationStep a (anisoStrengthStep a s))
  refine ⟨?_, ?_, ?_⟩
  · rw [h3f, h2f, h1f]
  · rw [h3fac, h2fac, h1fac]
  · rw [h3dir, h2dir]

theorem extractLayers_aniso (b : Bool) (m : MaterialDescription)
    (a : AnisotropyLayerDesc) (ha : m.anisotropyLayer = some a) (s : ExtractState)
    (hf : s.1.anisotropyLayer = false) (hc : s.2.anisotropyLayer = {}) :
    (extractLayers b m s).1.anisotropyLayer
        = (decide (resolvedAnisotropyStrength a ≠ 0)
            || decide (resolvedAnisotropyRotation a ≠ 0)
            || a.anisotropyTexture.isSome)
    ∧ (extractLayers b m s).2.anisotropyLayer.factor
        = clampQ (resolvedAnisotropyStrength a) (-1) 1
    ∧ (extractLayers b m s).2.anisotropyLayer.direction
        = ⟨resolvedAnisotropyRotation a⟩ := by
  simp only [extractLayers]
  have hf2 : ((if m.doubleSided.getD false = true then
      (orFlag (if b = true then (orFlag s.1 FlagConst.instancedObjectId, s.2) else s).1
        FlagConst.doubleSided,
        (if b = true then (orFlag s.1 FlagConst.instancedObjectId, s.2) else s).2)
      else (if b = true then (orFlag s.1 FlagConst.instancedObjectId, s.2) else s)) :
      ExtractState).1.anisotropyLayer = false := by
    split_ifs <;> simp [orFlag, hf]
  have hc2 : ((if m.doubleSided.getD false = true then
      (orFlag (if b = true then (orFlag s.1 FlagConst.instancedObjectId, s.2) else s).1
        FlagConst.doubleSided,
        (if b = true then (orFlag s.1 FlagConst.instancedObjectId, s.2) else s).2)
      else (if b = true then (orFlag s.1 FlagConst.instancedObjectId, s.2) else s)) :
      ExtractState).2.anisotropyLayer = {} := by
    split_ifs <;> simp [orFlag, hc]
  generalize hG : (if m.doubleSided.getD false = true then
      (orFlag (if b = true then (orFlag s.1 FlagConst.instancedObjectId, s.2) else s).1
        FlagConst.doubleSided,
        (if b = true then (orFlag s.1 FlagConst.instancedObjectId, s.2) else s).2)
      else (if b = true then (orFlag s.1 FlagConst.instancedObjectId, s.2) else s)) = s2
    at hf2 hc2 ⊢
  obtain ⟨hccf, hccc⟩ := extractClearCoat_aniso m s2
  obtain ⟨hiof, hioc⟩ := extractIor_aniso m (extractClearCoat m s2)
  obtain ⟨hspf, hspc⟩ := extractSpecular_aniso m (extractIor m (extractClearCoat m s2))
  obtain ⟨haf, hafac, hadir⟩ := extractAnisotropy_spec m a ha
    (extractSpecular m (extractIor m (extractClearCoat m s2)))
    (by rw [hspf, hiof, hccf, hf2]) (by rw [hspc, hioc, hccc, hc2])
  obtain ⟨htrf, htrc⟩ := extractTransmission_aniso m
    (extractAnisotropy m (extractSpecular m (extractIor m (extractClearCoat m s2))))
  obtain ⟨hvof, hvoc⟩ := extractVolume_aniso m
    (extractTransmission m (extractAnisotropy m
      (extractSpecular m (extractIor m (extractClearCoat m s2)))))
  refine ⟨?_, ?_, ?_⟩
  · rw [hvof, htrf, haf]
  · rw [hvoc, htrc, hafac]
  · rw [hvoc, htrc, hadir]

/-- Claim C3: for every material containing the anisotropy layer (and the
required per-vertex-id attribute), the anisotropy layer flag is set iff
the resolved strength is nonzero OR the resolved rotation is nonzero OR an
anisotropy texture is present (the texture alone implies the layer); the
stored strength factor equals the resolved strength clamped to [-1,1], in
particular it lies in [-1,1]; and the stored direction is the rotation
vector (cosine, sine) of the resolved rotation angle. -/
theorem claim_C3_anisotropy (mt : Bool) (m : MaterialDescription)
    (a : AnisotropyLayerDesc) (b : Bool)
    (ha : m.anisotropyLayer = some a) (hb : m.hasPerVertexObjectId = some b) :
    ∃ fl c, setMaterialValuesInternal mt m = .ok (fl, c)
      ∧ (fl.anisotropyLayer = true ↔
          (resolvedAnisotropyStrength a ≠ 0 ∨ resolvedAnisotropyRotation a ≠ 0
            ∨ a.anisotropyTexture.isSome = true))
      ∧ (a.anisotropyTexture.isSome = true → fl.anisotropyLayer = true)
      ∧ c.anisotropyLayer.factor = clampQ (resolvedAnisotropyStrength a) (-1) 1
      ∧ (-1 ≤ c.anisotropyLayer.factor ∧ c.anisotropyLayer.factor ≤ 1)
      ∧ c.anisotropyLayer.direction = ⟨resolvedAnisotropyRotation a⟩ := by
  have hbase := extractBase_aniso mt m (orFlag {} .objectId, {})
  obtain ⟨hLf, hLfac, hLdir⟩ := extractLayers_aniso b m a ha
    (extractBase mt m (orFlag {} .objectId, {}))
    (by rw [hbase.1]; simp [orFlag]) (by rw [hbase.2])
  refine ⟨(extractLayers b m (extractBase mt m (orFlag {} .objectId, {}))).1,
    (extractLayers b m (extractBase mt m (orFlag {} .objectId, {}))).2,
    by simp only [setMaterialValuesInternal, hb], ?_, ?_, ?_, ?_, ?_⟩
  · rw [hLf]
    simp [or_assoc]
  · intro h
    rw [hLf, h]
    simp
  · exact hLfac
  · rw [hLfac]
    unfold clampQ
    constructor
    · exact le_min (le_max_right _ _) (by norm_num)
    · exact min_le_right _ _
  · exact hLdir

/-- Witness for claim C3: the theorem applied to the concrete demo
material whose anisotropy layer carries only strength 1/2. -/
theorem claim_C3_witness :
    ∃ fl c, setMaterialValuesInternal false matAnisoDemo = .ok (fl, c)
      ∧ (fl.anisotropyLayer = true ↔
          (resolvedAnisotropyStrength anisoDemoLayer ≠ 0
            ∨ resolvedAnisotropyRotation anisoDemoLayer ≠ 0
            ∨ anisoDemoLayer.anisotropyTexture.isSome = true))
      ∧ (anisoDemoLayer.anisotropyTexture.isSome = true → fl.anisotropyLayer = true)
      ∧ c.anisotropyLayer.factor
          = clampQ (resolvedAnisotropyStrength anisoDemoLayer) (-1) 1
      ∧ (-1 ≤ c.anisotropyLayer.factor ∧ c.anisotropyLayer.factor ≤ 1)
      ∧ c.anisotropyLayer.direction = ⟨resolvedAnisotropyRotation anisoDemoLayer⟩ :=
  claim_C3_anisotropy false matAnisoDemo anisoDemoLayer false rfl rfl

end PbrGfx

